import Mathlib

set_option maxRecDepth 100000

/-! Shallow embedding of the TRMNL token subsystem
    (custom_components/trmnl/token_manager.py and
    custom_components/trmnl/websocket/api.py, handle_update_screenshot).

    Python strings are Lean String values, Python bytes are lists of Nat
    below 256, Python exceptions are an explicit error type threaded through
    Except.  Stdlib collaborators (hashlib/hmac, base64, json, datetime) are
    implemented concretely below; datetimes are serialized through an
    injective decimal encoding of their UTC epoch microseconds (the claims
    under verification never inspect the concrete ISO-8601 text, only
    round-tripping, ordering and awareness). -/

/-- Python exception values relevant to the token subsystem.  The
Manager's catch clause `except (ValueError, KeyError, json.JSONDecodeError)`
covers the first, second and fifth constructors; `InvalidTokenError`
(a TRMNLAPIError subclass) is not caught by it, and TypeError or
AttributeError are caught by nothing inside the Manager. -/
inductive PyErr where
  | valueError (msg : String)
  | keyError (msg : String)
  | typeError (msg : String)
  | attributeError (msg : String)
  | jsonDecodeError (msg : String)
  | invalidToken (msg : String)
  deriving Repr, DecidableEq

/-- Message text of an exception, as Python str(err) would render it at the
Gate boundary. -/
def errStr : PyErr → String
  | .valueError m => m
  | .keyError m => m
  | .typeError m => m
  | .attributeError m => m
  | .jsonDecodeError m => m
  | .invalidToken m => m

/-! Hex encoding (hashlib hexdigest output). -/

def hexChars : List Char :=
  ['0', '1', '2', '3', '4', '5', '6', '7'] ++
    ['8', '9', 'a', 'b', 'c', 'd', 'e', 'f']

def hexDigit (n : Nat) : Char := hexChars.getD n '0'

def bytesToHex (bs : List Nat) : List Char :=
  bs.flatMap (fun b => [hexDigit (b / 16), hexDigit (b % 16)])

/-! SHA-256 over byte lists, embedded with Nat arithmetic (words are kept
below 2 ^ 32 by explicit reduction). -/

def w32 (n : Nat) : Nat := n % 4294967296

def rotr32 (n x : Nat) : Nat := w32 (x / 2 ^ n + x % 2 ^ n * 2 ^ (32 - n))

def shaCh (x y z : Nat) : Nat := Nat.xor (Nat.land x y) (Nat.land (Nat.xor x 4294967295) z)

def shaMaj (x y z : Nat) : Nat := Nat.xor (Nat.xor (Nat.land x y) (Nat.land x z)) (Nat.land y z)

def bigSigma0 (x : Nat) : Nat := Nat.xor (Nat.xor (rotr32 2 x) (rotr32 13 x)) (rotr32 22 x)

def bigSigma1 (x : Nat) : Nat := Nat.xor (Nat.xor (rotr32 6 x) (rotr32 11 x)) (rotr32 25 x)

def smallSigma0 (x : Nat) : Nat := Nat.xor (Nat.xor (rotr32 7 x) (rotr32 18 x)) (x / 8)

def smallSigma1 (x : Nat) : Nat := Nat.xor (Nat.xor (rotr32 17 x) (rotr32 19 x)) (x / 1024)

def shaK : List Nat :=
  [0x428a2f98, 0x71374491, 0xb5c0fbcf, 0xe9b5dba5, 0x3956c25b, 0x59f111f1, 0x923f82a4, 0xab1c5ed5] ++
    [0xd807aa98, 0x12835b01, 0x243185be, 0x550c7dc3, 0x72be5d74, 0x80deb1fe, 0x9bdc06a7, 0xc19bf174] ++
    [0xe49b69c1, 0xefbe4786, 0x0fc19dc6, 0x240ca1cc, 0x2de92c6f, 0x4a7484aa, 0x5cb0a9dc, 0x76f988da] ++
    [0x983e5152, 0xa831c66d, 0xb00327c8, 0xbf597fc7, 0xc6e00bf3, 0xd5a79147, 0x06ca6351, 0x14292967] ++
    [0x27b70a85, 0x2e1b2138, 0x4d2c6dfc, 0x53380d13, 0x650a7354, 0x766a0abb, 0x81c2c92e, 0x92722c85] ++
    [0xa2bfe8a1, 0xa81a664b, 0xc24b8b70, 0xc76c51a3, 0xd192e819, 0xd6990624, 0xf40e3585, 0x106aa070] ++
    [0x19a4c116, 0x1e376c08, 0x2748774c, 0x34b0bcb5, 0x391c0cb3, 0x4ed8aa4a, 0x5b9cca4f, 0x682e6ff3] ++
    [0x748f82ee, 0x78a5636f, 0x84c87814, 0x8cc70208, 0x90befffa, 0xa4506ceb, 0xbef9a3f7, 0xc67178f2]

def shaH0 : List Nat :=
  [0x6a09e667, 0xbb67ae85, 0x3c6ef372, 0xa54ff53a] ++
    [0x510e527f, 0x9b05688c, 0x1f83d9ab, 0x5be0cd19]

def bytesToWords : List Nat → List Nat
  | b0 :: b1 :: b2 :: b3 :: rest => (((b0 * 256 + b1) * 256 + b2) * 256 + b3) :: bytesToWords rest
  | _ => []

def extendSchedule : Nat → List Nat → List Nat
  | 0, ws => ws
  | n + 1, ws =>
    extendSchedule n (ws ++ [w32 (smallSigma1 (ws.getD (ws.length - 2) 0) +
      ws.getD (ws.length - 7) 0 + smallSigma0 (ws.getD (ws.length - 15) 0) +
      ws.getD (ws.length - 16) 0)])

def compressStep (st : List Nat) (kw : Nat × Nat) : List Nat :=
  match st with
  | [a, b, c, d, e, f, g, h] =>
    let t1 := w32 (h + bigSigma1 e + shaCh e f g + kw.1 + kw.2)
    let t2 := w32 (bigSigma0 a + shaMaj a b c)
    [w32 (t1 + t2), a, b, c, w32 (d + t1), e, f, g]
  | _ => st

def processChunk (h : List Nat) (chunk : List Nat) : List Nat :=
  let ws := extendSchedule 48 (bytesToWords chunk)
  let st := (shaK.zip ws).foldl compressStep h
  (h.zip st).map (fun p => w32 (p.1 + p.2))

def chunks64 : Nat → List Nat → List (List Nat)
  | 0, _ => []
  | _, [] => []
  | f + 1, l => l.take 64 :: chunks64 f (l.drop 64)

def shaPad (msg : List Nat) : List Nat :=
  let l := msg.length
  let k := (64 + 55 - l % 64) % 64
  msg ++ [128] ++ List.replicate k 0 ++
    [l * 8 / 2 ^ 56 % 256, l * 8 / 2 ^ 48 % 256, l * 8 / 2 ^ 40 % 256, l * 8 / 2 ^ 32 % 256,
     l * 8 / 2 ^ 24 % 256, l * 8 / 2 ^ 16 % 256, l * 8 / 2 ^ 8 % 256, l * 8 % 256]

def sha256 (msg : List Nat) : List Nat :=
  let padded := shaPad msg
  let hs := (chunks64 padded.length padded).foldl processChunk shaH0
  hs.flatMap (fun w => [w / 2 ^ 24 % 256, w / 2 ^ 16 % 256, w / 2 ^ 8 % 256, w % 256])

/-- HMAC-SHA256 over byte lists, as in Python hmac.new(key, msg, sha256). -/
def hmacSha256 (key msg : List Nat) : List Nat :=
  let k0 := if 64 < key.length then sha256 key else key
  let kpad := k0 ++ List.replicate (64 - k0.length) 0
  let ipadded := kpad.map (fun b => Nat.xor b 54)
  let opadded := kpad.map (fun b => Nat.xor b 92)
  sha256 (opadded ++ sha256 (ipadded ++ msg))

/-! UTF-8 codec (Python str.encode / bytes.decode). -/

def utf8EncodeChar (c : Char) : List Nat :=
  let n := c.toNat
  if n < 128 then [n]
  else if n < 2048 then [192 + n / 64, 128 + n % 64]
  else if n < 65536 then [224 + n / 4096, 128 + n / 64 % 64, 128 + n % 64]
  else [240 + n / 262144, 128 + n / 4096 % 64, 128 + n / 64 % 64, 128 + n % 64]

def utf8Encode (s : String) : List Nat := s.data.flatMap utf8EncodeChar

def contByte (b : Nat) : Bool := 128 ≤ b && b < 192

/-- First byte of a byte list, with the remainder. -/
def nextByte : List Nat → Option (Nat × List Nat)
  | [] => none
  | b :: r => some (b, r)

/-- One step of the UTF-8 decoder for a leading byte b: rec decodes the
bytes after the current sequence. -/
def utf8DecodeStep (rec : List Nat → Option (List Char)) (b : Nat) (rest : List Nat) :
    Option (List Char) :=
  if b < 128 then (rec rest).map (fun cs => Char.ofNat b :: cs)
  else if b < 192 then none
  else if b < 224 then
    (nextByte rest).bind (fun p =>
      if contByte p.1 then
        (rec p.2).map (fun cs => Char.ofNat ((b - 192) * 64 + (p.1 - 128)) :: cs)
      else none)
  else if b < 240 then
    (nextByte rest).bind (fun p =>
      (nextByte p.2).bind (fun q =>
        if contByte p.1 && contByte q.1 then
          if 55296 ≤ (b - 224) * 4096 + (p.1 - 128) * 64 + (q.1 - 128) &&
              (b - 224) * 4096 + (p.1 - 128) * 64 + (q.1 - 128) < 57344 then none
          else
            (rec q.2).map
              (fun cs => Char.ofNat ((b - 224) * 4096 + (p.1 - 128) * 64 + (q.1 - 128)) :: cs)
        else none))
  else if b < 248 then
    (nextByte rest).bind (fun p =>
      (nextByte p.2).bind (fun q =>
        (nextByte q.2).bind (fun r =>
          if contByte p.1 && contByte q.1 && contByte r.1 then
            if 1114112 ≤ (b - 240) * 262144 + (p.1 - 128) * 4096 + (q.1 - 128) * 64 +
                (r.1 - 128) then none
            else
              (rec r.2).map
                (fun cs => Char.ofNat ((b - 240) * 262144 + (p.1 - 128) * 4096 +
                  (q.1 - 128) * 64 + (r.1 - 128)) :: cs)
          else none)))
  else none

/-- UTF-8 decoder; rejects stray continuation bytes, truncated sequences,
surrogate scalars and out-of-range scalars (overlong encodings are accepted
leniently, which no claim exercises). -/
def utf8DecodeAux : Nat → List Nat → Option (List Char)
  | _, [] => some []
  | 0, _ :: _ => none
  | fuel + 1, b :: rest => utf8DecodeStep (utf8DecodeAux fuel) b rest

def utf8Decode (bs : List Nat) : Option String :=
  (utf8DecodeAux bs.length bs).map String.mk

/-! Base64 codec (Python base64.b64encode / b64decode, standard alphabet). -/

def b64Chars : List Char :=
  ['A', 'B', 'C', 'D', 'E', 'F', 'G', 'H', 'I', 'J', 'K', 'L', 'M',
   'N', 'O', 'P', 'Q', 'R', 'S', 'T', 'U', 'V', 'W', 'X', 'Y', 'Z',
   'a', 'b', 'c', 'd', 'e', 'f', 'g', 'h', 'i', 'j', 'k', 'l', 'm',
   'n', 'o', 'p', 'q', 'r', 's', 't', 'u', 'v', 'w', 'x', 'y', 'z',
   '0', '1', '2', '3', '4', '5', '6', '7', '8', '9', '+', '/']

def b64Char (n : Nat) : Char := b64Chars.getD n 'A'

def b64EncodeBytes : List Nat → List Char
  | [] => []
  | [b0] => [b64Char (b0 / 4), b64Char (b0 % 4 * 16), '=', '=']
  | [b0, b1] => [b64Char (b0 / 4), b64Char (b0 % 4 * 16 + b1 / 16), b64Char (b1 % 16 * 4), '=']
  | b0 :: b1 :: b2 :: rest =>
    b64Char (b0 / 4) :: b64Char (b0 % 4 * 16 + b1 / 16) ::
      b64Char (b1 % 16 * 4 + b2 / 64) :: b64Char (b2 % 64) :: b64EncodeBytes rest

/-- Python base64.b64encode followed by bytes.decode: the output alphabet is
ASCII so the decode step is the identity on the character level. -/
def b64encode (bs : List Nat) : String := String.mk (b64EncodeBytes bs)

def b64CharVal (c : Char) : Option Nat := b64Chars.indexOf? c

def b64DecodeGroups : List Char → Option (List Nat)
  | [] => some []
  | c0 :: c1 :: c2 :: c3 :: rest =>
    (b64CharVal c0).bind (fun v0 =>
    (b64CharVal c1).bind (fun v1 =>
      if c2 = '=' then
        if c3 = '=' then
          match rest with
          | [] => some [v0 * 4 + v1 / 16]
          | _ => none
        else none
      else
        (b64CharVal c2).bind (fun v2 =>
          if c3 = '=' then
            match rest with
            | [] => some [v0 * 4 + v1 / 16, v1 % 16 * 16 + v2 / 4]
            | _ => none
          else
            (b64CharVal c3).bind (fun v3 =>
              (b64DecodeGroups rest).map
                (fun tl => (v0 * 4 + v1 / 16) :: (v1 % 16 * 16 + v2 / 4) ::
                  (v2 % 4 * 64 + v3) :: tl)))))
  | _ => none

/-- Python base64.b64decode on a str argument: the argument must be ASCII
(else ValueError), characters outside the alphabet are discarded
(validate=False default), and a leftover group that is not a full quantum of
four raises binascii.Error; none models every raised ValueError subclass. -/
def b64decode (s : String) : Option (List Nat) :=
  if s.data.all (fun c => c.toNat < 128) then
    b64DecodeGroups (s.data.filter (fun c => b64Chars.contains c || c = '='))
  else none

/-! Decimal Nat codec used by the embedded datetime serialization. -/

def digitChar (d : Nat) : Char := Char.ofNat (48 + d)

def natRepr (n : Nat) : String :=
  if n = 0 then "0" else String.mk (((Nat.digits 10 n).reverse).map digitChar)

def digitVal (c : Char) : Option Nat :=
  if 48 ≤ c.toNat then if c.toNat ≤ 57 then some (c.toNat - 48) else none else none

def parseNatDigits (cs : List Char) : Option Nat :=
  if cs.isEmpty then none
  else (cs.mapM digitVal).map (fun ds => Nat.ofDigits 10 ds.reverse)

/-! Python datetime, reduced to the shape this subsystem uses: an instant
(UTC epoch microseconds) plus the aware/naive flag.  All datetimes the code
constructs are timezone.utc-aware; naive values can only enter through
attacker-supplied payload text.  Comparing naive with aware raises TypeError,
as in Python. -/

structure PyDt where
  usec : Nat
  aware : Bool
  deriving Repr, DecidableEq

/-- Python timedelta(hours=h) in microseconds. -/
def hoursUs (h : Nat) : Nat := h * 3600000000

/-- Modelled datetime.isoformat: an injective decimal rendering of the
instant, with the +00:00 offset suffix exactly when the value is aware.  The
claims never inspect the calendar text itself, only that serialization
round-trips, preserves order and records awareness. -/
def isoformat (t : PyDt) : String :=
  natRepr t.usec ++ (if t.aware then "+00:00" else "")

def utcSuffixRev : List Char := ['0', '0', ':', '0', '0', '+']

/-- Modelled datetime.fromisoformat over the encoding above; a failure models
the ValueError Python raises on unparseable input. -/
def fromisoformat (s : String) : Option PyDt :=
  if s.data.reverse.take 6 = utcSuffixRev then
    (parseNatDigits (s.data.reverse.drop 6).reverse).map (fun n => PyDt.mk n true)
  else
    (parseNatDigits s.data).map (fun n => PyDt.mk n false)

/-- Python comparison a <= b on datetimes: TypeError when exactly one side is
naive, otherwise instant order. -/
def pyLe (a b : PyDt) : Except PyErr Bool :=
  if a.aware = b.aware then Except.ok (decide (a.usec ≤ b.usec))
  else Except.error (PyErr.typeError "cannot compare offset-naive and offset-aware datetimes")

/-- Python comparison a >= b on datetimes. -/
def pyGe (a b : PyDt) : Except PyErr Bool := pyLe b a

/-! JSON model (Python json.dumps / json.loads for the fragment this code
exercises; numbers are integers, which no claim distinguishes further). -/

inductive JVal where
  | jnull
  | jbool (b : Bool)
  | jnum (n : Int)
  | jstr (s : String)
  | jarr (elems : List JVal)
  | jobj (members : List (String × JVal))
  deriving Repr


mutual

/-- Decidable equality for JSON values. -/
def jvalBeq : JVal → JVal → Bool
  | .jnull, .jnull => true
  | .jbool a, .jbool b => a == b
  | .jnum a, .jnum b => a == b
  | .jstr a, .jstr b => a == b
  | .jarr a, .jarr b => jlistBeq a b
  | .jobj a, .jobj b => jmembersBeq a b
  | _, _ => false

/-- Decidable equality for JSON arrays. -/
def jlistBeq : List JVal → List JVal → Bool
  | [], [] => true
  | x :: xs, y :: ys => jvalBeq x y && jlistBeq xs ys
  | _, _ => false

/-- Decidable equality for JSON object member lists. -/
def jmembersBeq : List (String × JVal) → List (String × JVal) → Bool
  | [], [] => true
  | (k, x) :: xs, (l, y) :: ys => k == l && jvalBeq x y && jmembersBeq xs ys
  | _, _ => false

end

mutual

theorem jvalBeq_eq : ∀ a b : JVal, jvalBeq a b = true ↔ a = b
  | .jnull, b => by cases b <;> simp [jvalBeq]
  | .jbool x, b => by cases b <;> simp [jvalBeq]
  | .jnum x, b => by cases b <;> simp [jvalBeq]
  | .jstr x, b => by cases b <;> simp [jvalBeq]
  | .jarr xs, b => by
    cases b <;> simp [jvalBeq]
    case jarr ys => exact jlistBeq_eq xs ys
  | .jobj xs, b => by
    cases b <;> simp [jvalBeq]
    case jobj ys => exact jmembersBeq_eq xs ys

theorem jlistBeq_eq : ∀ xs ys : List JVal, jlistBeq xs ys = true ↔ xs = ys
  | [], ys => by cases ys <;> simp [jlistBeq]
  | x :: xs, ys => by
    cases ys with
    | nil => simp [jlistBeq]
    | cons y ys =>
      simp [jlistBeq, Bool.and_eq_true, jvalBeq_eq x y, jlistBeq_eq xs ys]

theorem jmembersBeq_eq : ∀ xs ys : List (String × JVal), jmembersBeq xs ys = true ↔ xs = ys
  | [], ys => by cases ys <;> simp [jmembersBeq]
  | (k, x) :: xs, ys => by
    cases ys with
    | nil => simp [jmembersBeq]
    | cons kv ys =>
      obtain ⟨l, y⟩ := kv
      simp [jmembersBeq, Bool.and_eq_true, jvalBeq_eq x y, jmembersBeq_eq xs ys,
        and_assoc]

end

instance : BEq JVal := ⟨jvalBeq⟩

instance : LawfulBEq JVal where
  eq_of_beq h := (jvalBeq_eq _ _).mp h
  rfl := (jvalBeq_eq _ _).mpr rfl

instance : DecidableEq JVal := fun a b => decidable_of_iff ((a == b) = true) beq_iff_eq

/-! JSON parser (json.loads for the fragment this subsystem can receive). -/

def skipWs (cs : List Char) : List Char :=
  cs.dropWhile (fun c => c = ' ' || c = '\n' || c = '\t' || c = '\r')

def escChar (c : Char) : Option Char :=
  if c = '"' then some '"'
  else if c = '\\' then some '\\'
  else if c = '/' then some '/'
  else if c = 'n' then some '\n'
  else if c = 't' then some '\t'
  else if c = 'r' then some '\r'
  else if c = 'b' then some (Char.ofNat 8)
  else if c = 'f' then some (Char.ofNat 12)
  else none

/-- First char of a char list, with the remainder. -/
def nextChar : List Char → Option (Char × List Char)
  | [] => none
  | c :: r => some (c, r)

/-- JSON string-literal scanner after the opening quote; the Bool records a
pending backslash escape. -/
def parseJStrAux : List Char → Bool → Option (List Char × List Char)
  | [], _ => none
  | c :: rest, true =>
    (escChar c).bind (fun ec => (parseJStrAux rest false).map (fun q => (ec :: q.1, q.2)))
  | c :: rest, false =>
    if c = '"' then some ([], rest)
    else if c = '\\' then parseJStrAux rest true
    else (parseJStrAux rest false).map (fun q => (c :: q.1, q.2))

def parseJStringAux (cs : List Char) : Option (List Char × List Char) :=
  parseJStrAux cs false

def isDigitCh (c : Char) : Bool := 48 ≤ c.toNat && c.toNat ≤ 57

def parseJNum (cs : List Char) : Option (JVal × List Char) :=
  match cs with
  | '-' :: rest =>
    (parseNatDigits (rest.takeWhile isDigitCh)).map
      (fun n => (JVal.jnum (-(n : Int)), rest.dropWhile isDigitCh))
  | _ =>
    (parseNatDigits (cs.takeWhile isDigitCh)).map
      (fun n => (JVal.jnum (n : Int), cs.dropWhile isDigitCh))

mutual

/-- Recursive-descent JSON value parser, fuelled for termination; the
top-level entry point always supplies enough fuel. -/
def parseJValue : Nat → List Char → Option (JVal × List Char)
  | 0, _ => none
  | fuel + 1, cs0 =>
    (nextChar (skipWs cs0)).bind (fun p =>
      if p.1 = '"' then
        (parseJStringAux p.2).map (fun q => (JVal.jstr (String.mk q.1), q.2))
      else if p.1 = '{' then
        (nextChar (skipWs p.2)).bind (fun q =>
          if q.1 = '}' then some (JVal.jobj [], q.2)
          else (parseJMembers fuel (skipWs p.2)).map (fun ms => (JVal.jobj ms.1, ms.2)))
      else if p.1 = '[' then
        (nextChar (skipWs p.2)).bind (fun q =>
          if q.1 = ']' then some (JVal.jarr [], q.2)
          else (parseJElems fuel (skipWs p.2)).map (fun es => (JVal.jarr es.1, es.2)))
      else if p.1 = 'n' then
        if p.2.take 3 = ['u', 'l', 'l'] then some (JVal.jnull, p.2.drop 3) else none
      else if p.1 = 't' then
        if p.2.take 3 = ['r', 'u', 'e'] then some (JVal.jbool true, p.2.drop 3) else none
      else if p.1 = 'f' then
        if p.2.take 4 = ['a', 'l', 's', 'e'] then some (JVal.jbool false, p.2.drop 4) else none
      else parseJNum (skipWs cs0))

/-- Parses the elements of a non-empty JSON array, after the opening
bracket. -/
def parseJElems : Nat → List Char → Option (List JVal × List Char)
  | 0, _ => none
  | fuel + 1, cs =>
    (parseJValue fuel cs).bind (fun v =>
      (nextChar (skipWs v.2)).bind (fun c1 =>
        if c1.1 = ',' then
          (parseJElems fuel c1.2).map (fun es => (v.1 :: es.1, es.2))
        else if c1.1 = ']' then some ([v.1], c1.2)
        else none))

/-- Parses the members of a non-empty JSON object, after the opening
brace. -/
def parseJMembers : Nat → List Char → Option (List (String × JVal) × List Char)
  | 0, _ => none
  | fuel + 1, cs =>
    (nextChar (skipWs cs)).bind (fun p =>
      if p.1 = '"' then
        (parseJStringAux p.2).bind (fun k =>
          (nextChar (skipWs k.2)).bind (fun c1 =>
            if c1.1 = ':' then
              (parseJValue fuel c1.2).bind (fun v =>
                (nextChar (skipWs v.2)).bind (fun c2 =>
                  if c2.1 = ',' then
                    (parseJMembers fuel c2.2).map
                      (fun ms => ((String.mk k.1, v.1) :: ms.1, ms.2))
                  else if c2.1 = '}' then some ([(String.mk k.1, v.1)], c2.2)
                  else none))
            else none))
      else none)

end

/-- Python json.loads: parse one value and require only whitespace after it. -/
def jsonLoads (s : String) : Option JVal :=
  (parseJValue (2 * s.data.length + 4) s.data).bind
    (fun p => if skipWs p.2 = [] then some p.1 else none)

/-! Python json.dumps restricted to the payload dictionary the code builds:
three string fields in insertion order, default separators.  Quote and
backslash are escaped; other characters are carried verbatim (Python instead
escapes control and non-ASCII characters, but both escapings parse back to
the same string, and no claim inspects the serialized text itself). -/

def escapeJChar (c : Char) : List Char :=
  if c = '"' then ['\\', '"'] else if c = '\\' then ['\\', '\\'] else [c]

def jsonQuote (s : String) : List Char :=
  '"' :: (s.data.flatMap escapeJChar ++ ['"'])

/-- Serialized form of the payload dict
\x7b"device_id": d, "expires_at": e, "issued_at": i\x7d built in
generate_token. -/
def payloadJson (d e i : String) : String :=
  String.mk ('\x7b' :: (jsonQuote "device_id" ++ [':', ' '] ++ jsonQuote d ++ [',', ' '] ++
    jsonQuote "expires_at" ++ [':', ' '] ++ jsonQuote e ++ [',', ' '] ++
    jsonQuote "issued_at" ++ [':', ' '] ++ jsonQuote i ++ ['\x7d']))

/-! Python dict views of parsed JSON. -/

/-- Lookup in a parsed JSON object; later duplicate keys win, matching dict
construction order in json.loads. -/
def assocGet (ms : List (String × JVal)) (key : String) : Option JVal :=
  (ms.reverse.find? (fun kv => kv.1 == key)).map (fun kv => kv.2)

/-- Python value.get(key): only dicts have the get attribute. -/
def pyDictGet (v : JVal) (key : String) : Except PyErr (Option JVal) :=
  match v with
  | .jobj ms => Except.ok (assocGet ms key)
  | _ => Except.error (PyErr.attributeError "object has no attribute get")

/-- Python value[key] with a string key: KeyError on a dict miss, TypeError
on lists and every other non-dict value. -/
def pySubscript (v : JVal) (key : String) : Except PyErr JVal :=
  match v with
  | .jobj ms =>
    match assocGet ms key with
    | some x => Except.ok x
    | none => Except.error (PyErr.keyError key)
  | .jarr _ => Except.error (PyErr.typeError "list indices must be integers or slices, not str")
  | _ => Except.error (PyErr.typeError "value is not subscriptable")

/-- Python datetime.fromisoformat applied to a JSON value: TypeError unless
the value is a str, ValueError if the text does not parse. -/
def pyFromIso (v : JVal) : Except PyErr PyDt :=
  match v with
  | .jstr s =>
    match fromisoformat s with
    | some t => Except.ok t
    | none => Except.error (PyErr.valueError ("Invalid isoformat string: " ++ s))
  | _ => Except.error (PyErr.typeError "fromisoformat: argument must be str")

/-! Except-typed wrappers naming the ValueError subclasses the stdlib raises
on decode failures. -/

def b64decodeE (s : String) : Except PyErr (List Nat) :=
  match b64decode s with
  | some bs => Except.ok bs
  | none => Except.error (PyErr.valueError "Invalid base64-encoded string")

def utf8DecodeE (bs : List Nat) : Except PyErr String :=
  match utf8Decode bs with
  | some s => Except.ok s
  | none => Except.error (PyErr.valueError "invalid utf-8 sequence")

def jsonLoadsE (s : String) : Except PyErr JVal :=
  match jsonLoads s with
  | some v => Except.ok v
  | none => Except.error (PyErr.jsonDecodeError "Expecting value")

/-- Python hmac.compare_digest on str arguments: both must be ASCII (else
TypeError); the result is plain equality, timing aside. -/
def compare_digest (a b : String) : Except PyErr Bool :=
  if a.data.all (fun c => c.toNat < 128) && b.data.all (fun c => c.toNat < 128) then
    Except.ok (a == b)
  else
    Except.error (PyErr.typeError "comparing strings with non-ASCII characters is not supported")

/-! Python str.split on the single-character separator TOKEN_SEPARATOR. -/

def splitListU : List Char → List (List Char)
  | [] => [[]]
  | c :: rest =>
    match splitListU rest with
    | [] => [[c]]
    | g :: gs => if c = '_' then [] :: g :: gs else (c :: g) :: gs

/-- Python token.split(TOKEN_SEPARATOR) with TOKEN_SEPARATOR = underscore. -/
def pySplit (s : String) : List String := (splitListU s.data).map String.mk

/-! Token Manager (custom_components/trmnl/token_manager.py).  The secret is
the TokenManager constructor argument; datetime.now(timezone.utc) is the
explicit nowUs parameter (generate_token calls now() twice a few
microseconds apart; the embedding uses one instant for both fields, which no
claim distinguishes). Constants from const.py: TOKEN_TTL_HOURS = 24,
TOKEN_ROTATION_THRESHOLD_HOURS = 6, TOKEN_PREFIX = "token",
TOKEN_SEPARATOR = underscore. -/

def TOKEN_TTL_US : Nat := hoursUs 24

def TOKEN_ROTATION_THRESHOLD_US : Nat := hoursUs 6

/-- TokenManager._generate_signature: hex-encoded HMAC-SHA256 of the payload
under the secret. -/
def _generate_signature (secret payload : String) : String :=
  String.mk (bytesToHex (hmacSha256 (utf8Encode secret) (utf8Encode payload)))

/-- Base64 payload segment of a token generated for device_id at instant
nowUs. -/
def payloadB64Of (device_id : String) (nowUs : Nat) : String :=
  b64encode (utf8Encode (payloadJson device_id
    (isoformat (PyDt.mk (nowUs + TOKEN_TTL_US) true))
    (isoformat (PyDt.mk nowUs true))))

/-- Token string generate_token assembles for device_id at instant nowUs. -/
def genTok (secret device_id : String) (nowUs : Nat) : String :=
  "token" ++ "_" ++ payloadB64Of device_id nowUs ++ "_" ++
    _generate_signature secret (payloadB64Of device_id nowUs)

/-- TokenManager.generate_token: build the payload with
expires_at = now + TTL, base64 the JSON, sign it, join prefix, payload and
signature with the separator; ValueError on an empty device_id. -/
def generate_token (secret device_id : String) (nowUs : Nat) : Except PyErr String :=
  if device_id = "" then
    Except.error (PyErr.valueError "device_id must be a non-empty string")
  else
    Except.ok (genTok secret device_id nowUs)

/-- Body of TokenManager.validate_token inside its try block: split, check
part count and the literal prefix, recompute and compare the signature,
decode base64 and UTF-8, parse JSON, subscript expires_at, parse the
timestamp, and fail with the expired reason unless now is strictly before
it.  Each bind propagates a raised exception. -/
def validateBody (secret token : String) (nowUs : Nat) : Except PyErr Bool :=
  match pySplit token with
  | [p0, payload_b64, sigPart] =>
    if p0 = "token" then
      (compare_digest sigPart (_generate_signature secret payload_b64)).bind (fun eqSig =>
        if eqSig then
          (b64decodeE payload_b64).bind (fun bs =>
            (utf8DecodeE bs).bind (fun payload_json =>
              (jsonLoadsE payload_json).bind (fun payload_data =>
                (pySubscript payload_data "expires_at").bind (fun ev =>
                  (pyFromIso ev).bind (fun expires_at =>
                    (pyGe (PyDt.mk nowUs true) expires_at).bind (fun expired =>
                      if expired then Except.error (PyErr.invalidToken "Token has expired")
                      else Except.ok true))))))
        else Except.error (PyErr.invalidToken "Invalid token signature"))
    else Except.error (PyErr.invalidToken "Invalid token prefix")
  | _ => Except.error (PyErr.invalidToken "Invalid token format")

/-- The except clause of the Manager methods: ValueError, KeyError and
JSONDecodeError are re-raised as InvalidTokenError with a format message;
InvalidTokenError itself, TypeError and AttributeError pass through. -/
def mapFormatErrors {α : Type} : Except PyErr α → Except PyErr α
  | Except.error (PyErr.valueError m) =>
    Except.error (PyErr.invalidToken ("Invalid token format: " ++ m))
  | Except.error (PyErr.keyError m) =>
    Except.error (PyErr.invalidToken ("Invalid token format: " ++ m))
  | Except.error (PyErr.jsonDecodeError m) =>
    Except.error (PyErr.invalidToken ("Invalid token format: " ++ m))
  | r => r

/-- TokenManager.validate_token. -/
def validate_token (secret token : String) (nowUs : Nat) : Except PyErr Bool :=
  if token = "" then Except.error (PyErr.invalidToken "Token must be a non-empty string")
  else mapFormatErrors (validateBody secret token nowUs)

/-- Body of TokenManager.should_rotate_token inside its try block: split,
check the part count, decode the payload and compare expires_at against
now + rotation threshold.  Neither the prefix nor the signature is
examined (the secret is not even used), so the function is stated without
the TokenManager receiver. -/
def shouldRotateBody (token : String) (nowUs : Nat) : Except PyErr Bool :=
  match pySplit token with
  | [_, payload_b64, _] =>
    (b64decodeE payload_b64).bind (fun bs =>
      (utf8DecodeE bs).bind (fun payload_json =>
        (jsonLoadsE payload_json).bind (fun payload_data =>
          (pySubscript payload_data "expires_at").bind (fun ev =>
            (pyFromIso ev).bind (fun expires_at =>
              pyLe expires_at (PyDt.mk (nowUs + TOKEN_ROTATION_THRESHOLD_US) true))))))
  | _ => Except.error (PyErr.invalidToken "Invalid token format")

/-- TokenManager.should_rotate_token. -/
def should_rotate_token (token : String) (nowUs : Nat) : Except PyErr Bool :=
  if token = "" then Except.error (PyErr.invalidToken "Token must be a non-empty string")
  else mapFormatErrors (shouldRotateBody token nowUs)

/-- Dictionary returned by TokenManager.get_token_info: the three
payload_data.get results (None when the field is absent). -/
structure TokenInfo where
  device_id : Option JVal
  issued_at : Option JVal
  expires_at : Option JVal
  deriving Repr, DecidableEq

/-- Body of TokenManager.get_token_info inside its try block: split, check
the part count, decode the payload and read the three fields with dict.get;
no prefix or signature check. -/
def getTokenInfoBody (token : String) : Except PyErr TokenInfo :=
  match pySplit token with
  | [_, payload_b64, _] =>
    (b64decodeE payload_b64).bind (fun bs =>
      (utf8DecodeE bs).bind (fun payload_json =>
        (jsonLoadsE payload_json).bind (fun payload_data =>
          (pyDictGet payload_data "device_id").bind (fun di =>
            (pyDictGet payload_data "issued_at").bind (fun ia =>
              (pyDictGet payload_data "expires_at").bind (fun ea =>
                Except.ok (TokenInfo.mk di ia ea)))))))
  | _ => Except.error (PyErr.invalidToken "Invalid token format")

/-- TokenManager.get_token_info. -/
def get_token_info (token : String) : Except PyErr TokenInfo :=
  if token = "" then Except.error (PyErr.invalidToken "Token must be a non-empty string")
  else mapFormatErrors (getTokenInfoBody token)

/-! Authorization Gate (custom_components/trmnl/websocket/api.py,
handle_update_screenshot).  The WebSocket message fields arrive through
msg.get and are therefore optional; the coordinator and token-manager
lookups and the Updater (coordinator.async_update_screenshot) are external
collaborators, modelled as an environment.  The environment's secret is the
one _get_token_manager resolves (none when no manager is available). -/

/-- Outcome of the awaited coordinator.async_update_screenshot call: a
returned boolean, a raised TRMNLAPIError, or any other raised exception. -/
inductive UpdaterOutcome where
  | ok (success : Bool)
  | apiError (msg : String)
  | otherError (msg : String)
  deriving Repr, DecidableEq

/-- Response sent on the WebSocket connection: connection.send_error with an
error code, or connection.send_result with the success/message payload. -/
inductive GateResponse where
  | sendError (code : String) (message : String)
  | sendResult (success : Bool) (message : String)
  deriving Repr, DecidableEq

structure GateEnv where
  hasCoordinator : Bool
  secret : Option String
  updater : UpdaterOutcome
  nowUs : Nat

structure UpdateMsg where
  entry_id : Option String
  device_id : Option String
  image_url : Option String
  token : Option String

/-- Python truthiness of an optional string field read with msg.get. -/
def truthyStr : Option String → Bool
  | some s => decide (s ≠ "")
  | none => false

/-- handle_update_screenshot, returning the response sent and whether the
Updater was invoked.  Mirrors the source: required-field check, coordinator
lookup, token-manager lookup, validate_token and get_token_info inside a
try whose except InvalidTokenError sends unauthorized with str(err), the
device-binding comparison, the Updater call inside a try catching only
TRMNLAPIError, and the handler-wide except Exception that sends
internal_error with str(err). -/
def handle_update_screenshot (env : GateEnv) (msg : UpdateMsg) : GateResponse × Bool :=
  if ¬(truthyStr msg.entry_id && truthyStr msg.device_id &&
      truthyStr msg.image_url && truthyStr msg.token) then
    (GateResponse.sendError "invalid_format" "entry_id, device_id, image_url, and token required",
      false)
  else if ¬env.hasCoordinator then
    (GateResponse.sendError "unauthorized" "No coordinator for this entry", false)
  else
    match env.secret with
    | none => (GateResponse.sendError "internal_error" "No token manager for this entry", false)
    | some secret =>
      let device_id := msg.device_id.getD ""
      let token := msg.token.getD ""
      match validate_token secret token env.nowUs with
      | Except.error (PyErr.invalidToken m) => (GateResponse.sendError "unauthorized" m, false)
      | Except.error e => (GateResponse.sendError "internal_error" (errStr e), false)
      | Except.ok _ =>
        match get_token_info token with
        | Except.error (PyErr.invalidToken m) => (GateResponse.sendError "unauthorized" m, false)
        | Except.error e => (GateResponse.sendError "internal_error" (errStr e), false)
        | Except.ok info =>
          if ¬(info.device_id == some (JVal.jstr device_id)) then
            (GateResponse.sendError "unauthorized" "Token is not valid for this device", false)
          else
            match env.updater with
            | UpdaterOutcome.ok true =>
              (GateResponse.sendResult true "Screenshot updated successfully", true)
            | UpdaterOutcome.ok false =>
              (GateResponse.sendResult false "Failed to update screenshot", true)
            | UpdaterOutcome.apiError m =>
              (GateResponse.sendResult false ("API error: " ++ m), true)
            | UpdaterOutcome.otherError m =>
              (GateResponse.sendError "internal_error" m, true)

/-! Support lemmas about the embedded stdlib pieces. -/

theorem getD_mem_or (l : List Char) (d : Char) (n : Nat) : l.getD n d ∈ l ∨ l.getD n d = d := by
  induction l generalizing n with
  | nil => right; rfl
  | cons a t ih =>
    cases n with
    | zero => left; simp [List.getD]
    | succ m =>
      rcases ih m with h | h
      · left
        simpa [List.getD] using List.mem_cons_of_mem a (by simpa [List.getD] using h)
      · right
        simpa [List.getD] using h

theorem hexDigit_mem (n : Nat) : hexDigit n ∈ hexChars := by
  rcases getD_mem_or hexChars '0' n with h | h
  · exact h
  · rw [hexDigit, h]; decide

theorem hexChar_prop : ∀ c ∈ hexChars, c ≠ '_' ∧ c.toNat < 128 := by decide

theorem bytesToHex_mem {c : Char} {bs : List Nat} (h : c ∈ bytesToHex bs) : c ∈ hexChars := by
  rw [bytesToHex] at h
  rcases List.mem_flatMap.mp h with ⟨b, _, hc⟩
  simp only [List.mem_cons, List.not_mem_nil, or_false] at hc
  rcases hc with h1 | h1
  · exact h1 ▸ hexDigit_mem _
  · exact h1 ▸ hexDigit_mem _

theorem sig_chars {c : Char} {secret payload : String}
    (h : c ∈ (_generate_signature secret payload).data) : c ∈ hexChars :=
  bytesToHex_mem (by simpa [_generate_signature] using h)

theorem sig_no_underscore {secret payload : String} :
    '_' ∉ (_generate_signature secret payload).data := by
  intro h
  exact absurd rfl (hexChar_prop _ (sig_chars h)).1

theorem sig_ascii {secret payload : String} :
    ((_generate_signature secret payload).data.all (fun c => c.toNat < 128)) = true := by
  rw [List.all_eq_true]
  intro c hc
  simpa using (hexChar_prop c (sig_chars hc)).2

theorem data_mk (l : List Char) : (String.mk l).data = l := rfl

theorem compressStep_length (st : List Nat) (kw : Nat × Nat) :
    (compressStep st kw).length = st.length := by
  unfold compressStep
  rcases st with _ | ⟨a, _ | ⟨b, _ | ⟨c, _ | ⟨d, _ | ⟨e, _ | ⟨f, _ | ⟨g, _ | ⟨h, _ | ⟨i, t⟩⟩⟩⟩⟩⟩⟩⟩⟩ <;> rfl

theorem foldl_compressStep_length (l : List (Nat × Nat)) (st : List Nat) :
    (l.foldl compressStep st).length = st.length := by
  induction l generalizing st with
  | nil => rfl
  | cons a t ih => rw [List.foldl_cons, ih, compressStep_length]

theorem processChunk_length (h : List Nat) (chunk : List Nat) :
    (processChunk h chunk).length = h.length := by
  rw [processChunk]
  simp [foldl_compressStep_length]

theorem foldl_processChunk_length (l : List (List Nat)) (h : List Nat) :
    (l.foldl processChunk h).length = h.length := by
  induction l generalizing h with
  | nil => rfl
  | cons a t ih => rw [List.foldl_cons, ih, processChunk_length]

theorem flatMap_const_length {α β : Type} (f : α → List β) (k : Nat)
    (hf : ∀ a, (f a).length = k) (l : List α) : (l.flatMap f).length = k * l.length := by
  induction l with
  | nil => simp
  | cons a t ih => simp [List.flatMap_cons, ih, hf a, Nat.mul_succ, Nat.add_comm]

theorem sha256_length (msg : List Nat) : (sha256 msg).length = 32 := by
  simp only [sha256]
  rw [flatMap_const_length (fun w => [w / 2 ^ 24 % 256, w / 2 ^ 16 % 256, w / 2 ^ 8 % 256, w % 256]) 4 (fun w => rfl), foldl_processChunk_length]
  rfl

theorem hmacSha256_length (key msg : List Nat) : (hmacSha256 key msg).length = 32 := by
  simp only [hmacSha256]
  exact sha256_length _

theorem bytesToHex_length (bs : List Nat) : (bytesToHex bs).length = 2 * bs.length := by
  rw [bytesToHex]
  exact flatMap_const_length (fun b => [hexDigit (b / 16), hexDigit (b % 16)]) 2 (fun b => rfl) bs

theorem sig_length (secret payload : String) :
    (_generate_signature secret payload).data.length = 64 := by
  rw [_generate_signature, data_mk, bytesToHex_length, hmacSha256_length]

theorem sha256_bytes_lt {b : Nat} {msg : List Nat} (h : b ∈ sha256 msg) : b < 256 := by
  simp only [sha256] at h
  rcases List.mem_flatMap.mp h with ⟨w, _, hb⟩
  simp only [List.mem_cons, List.not_mem_nil, or_false] at hb
  rcases hb with h1 | h1 | h1 | h1 <;> subst h1 <;> exact Nat.mod_lt _ (by norm_num)

/-! Behavior of the underscore split on well-formed token shapes. -/

theorem splitListU_ne_nil (cs : List Char) : splitListU cs ≠ [] := by
  cases cs with
  | nil => simp [splitListU]
  | cons c rest =>
    rw [splitListU]
    rcases h : splitListU rest with _ | ⟨g, gs⟩
    · simp
    · by_cases hc : c = '_' <;> simp [hc]

theorem splitListU_no_underscore {cs : List Char} (h : '_' ∉ cs) : splitListU cs = [cs] := by
  induction cs with
  | nil => rfl
  | cons c rest ih =>
    rw [splitListU, ih (fun hm => h (List.mem_cons_of_mem c hm))]
    have hc : c ≠ '_' := fun hc => h (hc ▸ List.mem_cons_self c rest)
    simp [hc]

theorem splitListU_append {xs ys : List Char} (h : '_' ∉ xs) :
    splitListU (xs ++ '_' :: ys) = xs :: splitListU ys := by
  induction xs with
  | nil =>
    rw [List.nil_append, splitListU]
    rcases hs : splitListU ys with _ | ⟨g, gs⟩
    · exact absurd hs (splitListU_ne_nil ys)
    · simp
  | cons c rest ih =>
    have hc : c ≠ '_' := fun hc => h (hc ▸ List.mem_cons_self c rest)
    rw [List.cons_append, splitListU, ih (fun hm => h (List.mem_cons_of_mem c hm))]
    simp [hc]

theorem pySplit_three {a b c : List Char} (ha : '_' ∉ a) (hb : '_' ∉ b) (hc : '_' ∉ c) :
    pySplit (String.mk (a ++ '_' :: b ++ '_' :: c)) = [String.mk a, String.mk b, String.mk c] := by
  rw [pySplit, data_mk]
  have : a ++ '_' :: b ++ '_' :: c = a ++ '_' :: (b ++ '_' :: c) := by simp
  rw [this, splitListU_append ha, splitListU_append hb, splitListU_no_underscore hc]
  rfl

/-! Base64 facts: alphabet membership, ASCII bound, and the decode of an
encode. -/

theorem b64Char_mem (n : Nat) : b64Char n ∈ b64Chars := by
  rcases getD_mem_or b64Chars 'A' n with h | h
  · exact h
  · rw [b64Char, h]; decide

theorem b64Chars_prop : ∀ c ∈ b64Chars, c ≠ '_' ∧ c ≠ '=' ∧ c.toNat < 128 := by decide

theorem b64EncodeBytes_mem {c : Char} : ∀ {bs : List Nat}, c ∈ b64EncodeBytes bs →
    c ∈ b64Chars ∨ c = '='
  | [], h => by simp [b64EncodeBytes] at h
  | [b0], h => by
    simp only [b64EncodeBytes, List.mem_cons, List.not_mem_nil, or_false] at h
    rcases h with h | h | h | h <;> subst h <;> first | exact Or.inl (b64Char_mem _) | exact Or.inr rfl
  | [b0, b1], h => by
    simp only [b64EncodeBytes, List.mem_cons, List.not_mem_nil, or_false] at h
    rcases h with h | h | h | h <;> subst h <;> first | exact Or.inl (b64Char_mem _) | exact Or.inr rfl
  | b0 :: b1 :: b2 :: rest, h => by
    rw [b64EncodeBytes] at h
    simp only [List.mem_cons] at h
    rcases h with h | h | h | h | h
    · exact h ▸ Or.inl (b64Char_mem _)
    · exact h ▸ Or.inl (b64Char_mem _)
    · exact h ▸ Or.inl (b64Char_mem _)
    · exact h ▸ Or.inl (b64Char_mem _)
    · exact b64EncodeBytes_mem h

theorem b64encode_no_underscore (bs : List Nat) : '_' ∉ (b64encode bs).data := by
  rw [b64encode, data_mk]
  intro h
  rcases b64EncodeBytes_mem h with h1 | h1
  · exact absurd rfl (b64Chars_prop _ h1).1
  · exact absurd h1 (by decide)

theorem b64encode_ascii (bs : List Nat) :
    ((b64encode bs).data.all (fun c => c.toNat < 128)) = true := by
  rw [b64encode, data_mk, List.all_eq_true]
  intro c hc
  rcases b64EncodeBytes_mem hc with h1 | h1
  · simpa using (b64Chars_prop _ h1).2.2
  · subst h1; decide

theorem b64CharVal_b64Char {v : Nat} (h : v < 64) : b64CharVal (b64Char v) = some v := by
  interval_cases v <;> decide

theorem b64Char_ne_pad (v : Nat) : b64Char v ≠ '=' :=
  (b64Chars_prop _ (b64Char_mem v)).2.1

theorem b64DecodeGroups_encode : ∀ bs : List Nat, (∀ b ∈ bs, b < 256) →
    b64DecodeGroups (b64EncodeBytes bs) = some bs
  | [], _ => rfl
  | [b0], hb => by
    have h0 : b0 < 256 := hb b0 (by simp)
    rw [b64EncodeBytes, b64DecodeGroups]
    rw [b64CharVal_b64Char (by omega), b64CharVal_b64Char (by omega)]
    simp only [Option.some_bind, if_pos rfl]
    simp
    omega
  | [b0, b1], hb => by
    have h0 : b0 < 256 := hb b0 (by simp)
    have h1 : b1 < 256 := hb b1 (by simp)
    rw [b64EncodeBytes, b64DecodeGroups]
    rw [b64CharVal_b64Char (by omega), b64CharVal_b64Char (by omega)]
    simp only [Option.some_bind]
    rw [if_neg (b64Char_ne_pad _), b64CharVal_b64Char (by omega)]
    simp only [Option.some_bind, if_pos rfl]
    simp
    omega
  | b0 :: b1 :: b2 :: rest, hb => by
    have h0 : b0 < 256 := hb b0 (by simp)
    have h1 : b1 < 256 := hb b1 (by simp)
    have h2 : b2 < 256 := hb b2 (by simp)
    rw [b64EncodeBytes, b64DecodeGroups]
    rw [b64CharVal_b64Char (by omega), b64CharVal_b64Char (by omega)]
    simp only [Option.some_bind]
    rw [if_neg (b64Char_ne_pad _), b64CharVal_b64Char (by omega)]
    simp only [Option.some_bind]
    rw [if_neg (b64Char_ne_pad _), b64CharVal_b64Char (by omega)]
    simp only [Option.some_bind]
    rw [b64DecodeGroups_encode rest (fun b hm => hb b (by simp [hm]))]
    simp
    omega

theorem b64decode_encode (bs : List Nat) (hb : ∀ b ∈ bs, b < 256) :
    b64decode (b64encode bs) = some bs := by
  rw [b64decode, if_pos (b64encode_ascii bs)]
  rw [b64encode, data_mk]
  have hfilter : (b64EncodeBytes bs).filter (fun c => b64Chars.contains c || c = '=') =
      b64EncodeBytes bs := by
    rw [List.filter_eq_self]
    intro c hc
    rcases b64EncodeBytes_mem hc with h1 | h1
    · simp [h1]
    · simp [h1]
  rw [hfilter]
  exact b64DecodeGroups_encode bs hb

/-! UTF-8 facts: byte bounds and the decode of an encode. -/

theorem charValidNat (c : Char) : Char.isValidCharNat c.toNat := by
  have h := c.valid
  rcases h with h | ⟨h1, h2⟩
  · exact Or.inl h
  · exact Or.inr ⟨h1, h2⟩

theorem char_toNat_lt (c : Char) : c.toNat < 1114112 := by
  rcases charValidNat c with h | ⟨_, h⟩ <;> omega

theorem utf8EncodeChar_lt (c : Char) : ∀ b ∈ utf8EncodeChar c, b < 256 := by
  intro b hb
  have hn := char_toNat_lt c
  simp only [utf8EncodeChar] at hb
  by_cases h1 : c.toNat < 128
  · rw [if_pos h1] at hb
    simp only [List.mem_cons, List.not_mem_nil, or_false] at hb
    omega
  · rw [if_neg h1] at hb
    by_cases h2 : c.toNat < 2048
    · rw [if_pos h2] at hb
      simp only [List.mem_cons, List.not_mem_nil, or_false] at hb
      rcases hb with rfl | rfl <;> omega
    · rw [if_neg h2] at hb
      by_cases h3 : c.toNat < 65536
      · rw [if_pos h3] at hb
        simp only [List.mem_cons, List.not_mem_nil, or_false] at hb
        rcases hb with rfl | rfl | rfl <;> omega
      · rw [if_neg h3] at hb
        simp only [List.mem_cons, List.not_mem_nil, or_false] at hb
        rcases hb with rfl | rfl | rfl | rfl <;> omega

theorem utf8Encode_lt (s : String) : ∀ b ∈ utf8Encode s, b < 256 := by
  intro b hb
  rw [utf8Encode] at hb
  rcases List.mem_flatMap.mp hb with ⟨c, _, hc⟩
  exact utf8EncodeChar_lt c b hc

theorem utf8EncodeChar_ne_nil (c : Char) : utf8EncodeChar c ≠ [] := by
  simp only [utf8EncodeChar]
  split_ifs <;> simp

theorem length_le_flatMap_utf8 (cs : List Char) :
    cs.length ≤ (cs.flatMap utf8EncodeChar).length := by
  induction cs with
  | nil => simp
  | cons c t ih =>
    rw [List.flatMap_cons, List.length_append, List.length_cons]
    have : 0 < (utf8EncodeChar c).length :=
      List.length_pos.mpr (utf8EncodeChar_ne_nil c)
    omega

theorem utf8DecodeAux_encode : ∀ (cs : List Char) (fuel : Nat), cs.length ≤ fuel →
    utf8DecodeAux fuel (cs.flatMap utf8EncodeChar) = some cs
  | [], fuel, _ => by simp [utf8DecodeAux]
  | c :: cs, 0, h => by simp at h
  | c :: cs, fuel + 1, h => by
    have hv := charValidNat c
    have ih := utf8DecodeAux_encode cs fuel (by simpa using h)
    rw [List.flatMap_cons]
    by_cases h1 : c.toNat < 128
    · rw [show utf8EncodeChar c = [c.toNat] from by
        simp only [utf8EncodeChar]; rw [if_pos h1]]
      rw [List.singleton_append, utf8DecodeAux, utf8DecodeStep, if_pos h1, ih]
      simp [Char.ofNat_toNat]
    · by_cases h2 : c.toNat < 2048
      · rw [show utf8EncodeChar c = [192 + c.toNat / 64, 128 + c.toNat % 64] from by
          simp only [utf8EncodeChar]; rw [if_neg h1, if_pos h2]]
        rw [List.cons_append, List.cons_append, List.nil_append, utf8DecodeAux,
          utf8DecodeStep]
        rw [if_neg (by omega), if_neg (by omega), if_pos (by omega)]
        rw [show nextByte ((128 + c.toNat % 64) :: cs.flatMap utf8EncodeChar) =
          some (128 + c.toNat % 64, cs.flatMap utf8EncodeChar) from rfl]
        simp only [Option.some_bind]
        rw [if_pos (by simp only [contByte, Bool.and_eq_true, decide_eq_true_eq]; omega)]
        rw [ih]
        simp
        rw [show c.toNat / 64 * 64 + c.toNat % 64 = c.toNat from by omega]
        exact Char.ofNat_toNat c
      · by_cases h3 : c.toNat < 65536
        · rw [show utf8EncodeChar c =
              [224 + c.toNat / 4096, 128 + c.toNat / 64 % 64, 128 + c.toNat % 64] from by
            simp only [utf8EncodeChar]; rw [if_neg h1, if_neg h2, if_pos h3]]
          rw [List.cons_append, List.cons_append, List.cons_append, List.nil_append,
            utf8DecodeAux, utf8DecodeStep]
          rw [if_neg (by omega), if_neg (by omega), if_neg (by omega), if_pos (by omega)]
          rw [show nextByte ((128 + c.toNat / 64 % 64) :: (128 + c.toNat % 64) ::
              cs.flatMap utf8EncodeChar) =
            some (128 + c.toNat / 64 % 64, (128 + c.toNat % 64) :: cs.flatMap utf8EncodeChar)
            from rfl]
          simp only [Option.some_bind]
          rw [show nextByte ((128 + c.toNat % 64) :: cs.flatMap utf8EncodeChar) =
            some (128 + c.toNat % 64, cs.flatMap utf8EncodeChar) from rfl]
          simp only [Option.some_bind]
          rw [if_pos (by simp only [contByte, Bool.and_eq_true, decide_eq_true_eq]; omega)]
          rw [if_neg (by
            simp only [Bool.and_eq_true, decide_eq_true_eq, not_and, not_lt]
            intro hs
            rcases hv with hv | ⟨hv1, hv2⟩ <;> omega)]
          rw [ih]
          simp
          rw [show c.toNat / 4096 * 4096 + c.toNat / 64 % 64 * 64 + c.toNat % 64 = c.toNat
            from by omega]
          exact Char.ofNat_toNat c
        · have h4 : c.toNat < 1114112 := char_toNat_lt c
          rw [show utf8EncodeChar c =
              [240 + c.toNat / 262144, 128 + c.toNat / 4096 % 64, 128 + c.toNat / 64 % 64,
               128 + c.toNat % 64] from by
            simp only [utf8EncodeChar]; rw [if_neg h1, if_neg h2, if_neg h3]]
          rw [List.cons_append, List.cons_append, List.cons_append, List.cons_append,
            List.nil_append, utf8DecodeAux, utf8DecodeStep]
          rw [if_neg (by omega), if_neg (by omega), if_neg (by omega), if_neg (by omega),
            if_pos (by omega)]
          rw [show nextByte ((128 + c.toNat / 4096 % 64) :: (128 + c.toNat / 64 % 64) ::
              (128 + c.toNat % 64) :: cs.flatMap utf8EncodeChar) =
            some (128 + c.toNat / 4096 % 64, (128 + c.toNat / 64 % 64) ::
              (128 + c.toNat % 64) :: cs.flatMap utf8EncodeChar) from rfl]
          simp only [Option.some_bind]
          rw [show nextByte ((128 + c.toNat / 64 % 64) :: (128 + c.toNat % 64) ::
              cs.flatMap utf8EncodeChar) =
            some (128 + c.toNat / 64 % 64, (128 + c.toNat % 64) :: cs.flatMap utf8EncodeChar)
            from rfl]
          simp only [Option.some_bind]
          rw [show nextByte ((128 + c.toNat % 64) :: cs.flatMap utf8EncodeChar) =
            some (128 + c.toNat % 64, cs.flatMap utf8EncodeChar) from rfl]
          simp only [Option.some_bind]
          rw [if_pos (by simp only [contByte, Bool.and_eq_true, decide_eq_true_eq]; omega)]
          rw [if_neg (by omega)]
          rw [ih]
          simp
          rw [show c.toNat / 262144 * 262144 + c.toNat / 4096 % 64 * 4096 +
              c.toNat / 64 % 64 * 64 + c.toNat % 64 = c.toNat from by omega]
          exact Char.ofNat_toNat c

theorem utf8Decode_encode (s : String) : utf8Decode (utf8Encode s) = some s := by
  rw [utf8Decode, utf8Encode]
  rw [utf8DecodeAux_encode s.data _ (length_le_flatMap_utf8 s.data)]
  rfl

/-! Decimal codec and datetime serialization round trips. -/

theorem digitVal_digitChar {d : Nat} (h : d < 10) : digitVal (digitChar d) = some d := by
  interval_cases d <;> decide

theorem digitChar_bounds {d : Nat} (h : d < 10) :
    48 ≤ (digitChar d).toNat ∧ (digitChar d).toNat ≤ 57 := by
  interval_cases d <;> decide

theorem mapM_digitVal_map : ∀ l : List Nat, (∀ d ∈ l, d < 10) →
    (l.map digitChar).mapM digitVal = some l
  | [], _ => rfl
  | d :: t, h => by
    rw [List.map_cons, List.mapM_cons, digitVal_digitChar (h d (by simp)),
      mapM_digitVal_map t (fun x hx => h x (by simp [hx]))]
    rfl

theorem natRepr_chars {n : Nat} : ∀ c ∈ (natRepr n).data, 48 ≤ c.toNat ∧ c.toNat ≤ 57 := by
  intro c hc
  rw [natRepr] at hc
  by_cases h : n = 0
  · rw [if_pos h] at hc
    simp only [List.mem_cons] at hc
    rcases hc with rfl | hc
    · decide
    · simp at hc
  · rw [if_neg h, data_mk] at hc
    rcases List.mem_map.mp hc with ⟨d, hd, rfl⟩
    exact digitChar_bounds (Nat.digits_lt_base (by norm_num) (List.mem_reverse.mp hd))

theorem natRepr_no_underscore (n : Nat) : '_' ∉ (natRepr n).data := by
  intro h
  have := natRepr_chars _ h
  simp at this

theorem parseNatDigits_natRepr (n : Nat) : parseNatDigits (natRepr n).data = some n := by
  by_cases h : n = 0
  · subst h; decide
  · rw [natRepr, if_neg h, data_mk, parseNatDigits]
    rw [if_neg (by
      simp only [List.isEmpty_eq_true, List.map_eq_nil_iff, List.reverse_eq_nil_iff]
      exact Nat.digits_ne_nil_iff_ne_zero.mpr h)]
    rw [mapM_digitVal_map _ (fun d hd =>
      Nat.digits_lt_base (by norm_num) (List.mem_reverse.mp hd))]
    simp [Nat.ofDigits_digits]

theorem utcSuffix_data : ("+00:00" : String).data = ['+', '0', '0', ':', '0', '0'] := rfl

theorem fromisoformat_isoformat (u : Nat) :
    fromisoformat (isoformat (PyDt.mk u true)) = some (PyDt.mk u true) := by
  rw [isoformat]
  rw [show (if (PyDt.mk u true).aware then ("+00:00" : String) else "") = "+00:00" from rfl]
  rw [fromisoformat]
  rw [String.data_append, utcSuffix_data, List.reverse_append]
  have hrev : (['+', '0', '0', ':', '0', '0'] : List Char).reverse = utcSuffixRev := rfl
  rw [hrev]
  have htake : (utcSuffixRev ++ (natRepr u).data.reverse).take 6 = utcSuffixRev := by
    rw [show 6 = utcSuffixRev.length from rfl]
    exact List.take_left _ _
  have hdrop : (utcSuffixRev ++ (natRepr u).data.reverse).drop 6 = (natRepr u).data.reverse := by
    rw [show 6 = utcSuffixRev.length from rfl]
    exact List.drop_left _ _
  rw [if_pos htake, hdrop, List.reverse_reverse, parseNatDigits_natRepr]
  rfl

/-! JSON round trip on the payload object generate_token serializes. -/

theorem nextChar_cons (c : Char) (l : List Char) : nextChar (c :: l) = some (c, l) := rfl

theorem skipWs_quote (l : List Char) : skipWs ('"' :: l) = '"' :: l := rfl

theorem skipWs_colon (l : List Char) : skipWs (':' :: l) = ':' :: l := rfl

theorem skipWs_comma (l : List Char) : skipWs (',' :: l) = ',' :: l := rfl

theorem skipWs_space (l : List Char) : skipWs (' ' :: l) = skipWs l := rfl

theorem jsonQuote_append (s : String) (l : List Char) :
    jsonQuote s ++ l = '"' :: (s.data.flatMap escapeJChar ++ '"' :: l) := by
  rw [jsonQuote]
  simp [List.append_assoc]

theorem parseJStrAux_cons_true (c : Char) (l : List Char) :
    parseJStrAux (c :: l) true =
      (escChar c).bind (fun ec => (parseJStrAux l false).map (fun q => (ec :: q.1, q.2))) := rfl

theorem parseJStrAux_cons_false (c : Char) (l : List Char) :
    parseJStrAux (c :: l) false =
      if c = '"' then some ([], l)
      else if c = '\\' then parseJStrAux l true
      else (parseJStrAux l false).map (fun q => (c :: q.1, q.2)) := rfl

theorem parseJStrAux_quote : ∀ (cs rest : List Char),
    parseJStrAux (cs.flatMap escapeJChar ++ '"' :: rest) false = some (cs, rest)
  | [], rest => by
    rw [List.flatMap_nil, List.nil_append, parseJStrAux_cons_false, if_pos rfl]
  | c :: cs, rest => by
    rw [List.flatMap_cons]
    by_cases hq : c = '"'
    · subst hq
      rw [show escapeJChar '"' = ['\\', '"'] from rfl]
      simp only [List.cons_append, List.nil_append]
      rw [parseJStrAux_cons_false, if_neg (by decide), if_pos rfl]
      rw [parseJStrAux_cons_true]
      rw [show escChar '"' = some '"' from rfl]
      simp only [Option.some_bind]
      rw [parseJStrAux_quote cs rest]
      rfl
    · by_cases hb : c = '\\'
      · subst hb
        rw [show escapeJChar '\\' = ['\\', '\\'] from rfl]
        simp only [List.cons_append, List.nil_append]
        rw [parseJStrAux_cons_false, if_neg (by decide), if_pos rfl]
        rw [parseJStrAux_cons_true]
        rw [show escChar '\\' = some '\\' from rfl]
        simp only [Option.some_bind]
        rw [parseJStrAux_quote cs rest]
        rfl
      · rw [show escapeJChar c = [c] from by rw [escapeJChar, if_neg hq, if_neg hb]]
        simp only [List.cons_append, List.nil_append]
        rw [parseJStrAux_cons_false, if_neg hq, if_neg hb]
        rw [parseJStrAux_quote cs rest]
        rfl

theorem parseJValue_string (f : Nat) (s : String) (rest : List Char) :
    parseJValue (f + 1) ('"' :: (s.data.flatMap escapeJChar ++ '"' :: rest)) =
      some (JVal.jstr s, rest) := by
  rw [parseJValue, skipWs_quote, nextChar_cons]
  simp only [Option.some_bind, if_true]
  rw [parseJStringAux, parseJStrAux_quote]
  rfl

theorem skipWs_lbrace (l : List Char) : skipWs ('\x7b' :: l) = '\x7b' :: l := rfl

theorem skipWs_rbrace (l : List Char) : skipWs ('\x7d' :: l) = '\x7d' :: l := rfl

theorem parseJValue_cons_space (fuel : Nat) (l : List Char) :
    parseJValue fuel (' ' :: l) = parseJValue fuel l := by
  cases fuel <;> rfl

theorem parseJMembers_cons_space (fuel : Nat) (l : List Char) :
    parseJMembers fuel (' ' :: l) = parseJMembers fuel l := by
  cases fuel <;> rfl

theorem parseJMembers_step (f : Nat) (kd : List Char) (v : String) (rest : List Char) :
    parseJMembers (f + 1 + 1) ('"' :: (kd.flatMap escapeJChar ++ '"' :: ':' :: ' ' :: '"' ::
        (v.data.flatMap escapeJChar ++ '"' :: ',' :: rest))) =
      (parseJMembers (f + 1) rest).map
        (fun ms => ((String.mk kd, JVal.jstr v) :: ms.1, ms.2)) := by
  rw [parseJMembers, skipWs_quote, nextChar_cons]
  simp only [Option.some_bind, if_true]
  rw [parseJStringAux, parseJStrAux_quote]
  simp only [Option.some_bind]
  rw [skipWs_colon, nextChar_cons]
  simp only [Option.some_bind, if_true]
  rw [parseJValue_cons_space, parseJValue_string]
  simp only [Option.some_bind]
  rw [skipWs_comma, nextChar_cons]
  simp only [Option.some_bind, if_true]

theorem parseJMembers_last (f : Nat) (kd : List Char) (v : String) (rest : List Char) :
    parseJMembers (f + 1 + 1) ('"' :: (kd.flatMap escapeJChar ++ '"' :: ':' :: ' ' :: '"' ::
        (v.data.flatMap escapeJChar ++ '"' :: '\x7d' :: rest))) =
      some ([(String.mk kd, JVal.jstr v)], rest) := by
  rw [parseJMembers, skipWs_quote, nextChar_cons]
  simp only [Option.some_bind, if_true]
  rw [parseJStringAux, parseJStrAux_quote]
  simp only [Option.some_bind]
  rw [skipWs_colon, nextChar_cons]
  simp only [Option.some_bind, if_true]
  rw [parseJValue_cons_space, parseJValue_string]
  simp only [Option.some_bind]
  rw [skipWs_rbrace, nextChar_cons]
  simp only [Option.some_bind, if_false, if_true]
  rfl

/-- Canonical cons form of the serialized payload text. -/
def payloadData (d e i : String) : List Char :=
  '\x7b' :: '"' :: ("device_id".data.flatMap escapeJChar ++ '"' :: ':' :: ' ' :: '"' ::
    (d.data.flatMap escapeJChar ++ '"' :: ',' :: ' ' :: '"' ::
      ("expires_at".data.flatMap escapeJChar ++ '"' :: ':' :: ' ' :: '"' ::
        (e.data.flatMap escapeJChar ++ '"' :: ',' :: ' ' :: '"' ::
          ("issued_at".data.flatMap escapeJChar ++ '"' :: ':' :: ' ' :: '"' ::
            (i.data.flatMap escapeJChar ++ '"' :: '\x7d' :: []))))))

theorem payloadJson_data (d e i : String) : (payloadJson d e i).data = payloadData d e i := by
  rw [payloadJson, data_mk, payloadData]
  simp [jsonQuote, List.append_assoc]

theorem parseJValue_payload (f : Nat) (d e i : String) :
    parseJValue (f + 1 + 1 + 1 + 1 + 1) (payloadData d e i) =
      some (JVal.jobj [("device_id", JVal.jstr d), ("expires_at", JVal.jstr e),
        ("issued_at", JVal.jstr i)], []) := by
  rw [payloadData, parseJValue, skipWs_lbrace, nextChar_cons]
  simp only [Option.some_bind, if_true]
  simp only [skipWs_quote]
  rw [nextChar_cons]
  simp only [Option.some_bind]
  rw [parseJMembers_step, parseJMembers_cons_space, parseJMembers_step,
    parseJMembers_cons_space, parseJMembers_last]
  simp

theorem jsonLoads_payload (d e i : String) :
    jsonLoads (payloadJson d e i) = some (JVal.jobj
      [("device_id", JVal.jstr d), ("expires_at", JVal.jstr e), ("issued_at", JVal.jstr i)]) := by
  rw [jsonLoads]
  have hL : 1 ≤ (payloadJson d e i).data.length := by
    rw [payloadJson_data, payloadData]
    simp
  rw [show 2 * (payloadJson d e i).data.length + 4 =
    (2 * (payloadJson d e i).data.length - 1) + 1 + 1 + 1 + 1 + 1 from by omega]
  rw [payloadJson_data, parseJValue_payload]
  rfl

/-! Structure of a generated token. -/

theorem genTok_data (secret d : String) (t : Nat) :
    (genTok secret d t).data = ("token" : String).data ++ '_' ::
      ((payloadB64Of d t).data ++ '_' ::
        (_generate_signature secret (payloadB64Of d t)).data) := by
  rw [genTok]
  simp [String.data_append]

theorem genTok_ne_empty (secret d : String) (t : Nat) : genTok secret d t ≠ "" := by
  intro h
  have hd := congrArg String.data h
  rw [genTok_data] at hd
  simp at hd

theorem payloadB64Of_no_underscore (d : String) (t : Nat) :
    '_' ∉ (payloadB64Of d t).data :=
  b64encode_no_underscore _

theorem payloadB64Of_ascii (d : String) (t : Nat) :
    ((payloadB64Of d t).data.all (fun c => c.toNat < 128)) = true :=
  b64encode_ascii _

theorem pySplit_genTok (secret d : String) (t : Nat) :
    pySplit (genTok secret d t) =
      ["token", payloadB64Of d t, _generate_signature secret (payloadB64Of d t)] := by
  rw [pySplit, genTok_data]
  rw [splitListU_append (by decide), splitListU_append (payloadB64Of_no_underscore d t),
    splitListU_no_underscore sig_no_underscore]
  rfl

/-! The validate/generate round trip. -/

theorem compare_digest_sig (secret p : String) :
    compare_digest (_generate_signature secret p) (_generate_signature secret p) =
      Except.ok true := by
  rw [compare_digest, if_pos]
  · rw [beq_self_eq_true]
  · rw [sig_ascii]
    rfl

theorem b64decodeE_payload (d : String) (t : Nat) :
    b64decodeE (payloadB64Of d t) =
      Except.ok (utf8Encode (payloadJson d (isoformat (PyDt.mk (t + TOKEN_TTL_US) true))
        (isoformat (PyDt.mk t true)))) := by
  rw [b64decodeE]
  rw [show payloadB64Of d t = b64encode (utf8Encode (payloadJson d
    (isoformat (PyDt.mk (t + TOKEN_TTL_US) true)) (isoformat (PyDt.mk t true)))) from rfl]
  rw [b64decode_encode _ (utf8Encode_lt _)]

theorem utf8DecodeE_encode (s : String) : utf8DecodeE (utf8Encode s) = Except.ok s := by
  rw [utf8DecodeE, utf8Decode_encode]

theorem jsonLoadsE_payload (d e i : String) :
    jsonLoadsE (payloadJson d e i) = Except.ok (JVal.jobj
      [("device_id", JVal.jstr d), ("expires_at", JVal.jstr e), ("issued_at", JVal.jstr i)]) := by
  rw [jsonLoadsE, jsonLoads_payload]

theorem pySubscript_payload (d e i : String) :
    pySubscript (JVal.jobj [("device_id", JVal.jstr d), ("expires_at", JVal.jstr e),
      ("issued_at", JVal.jstr i)]) "expires_at" = Except.ok (JVal.jstr e) := by
  simp [pySubscript, assocGet]

theorem pyFromIso_isoformat (u : Nat) :
    pyFromIso (JVal.jstr (isoformat (PyDt.mk u true))) = Except.ok (PyDt.mk u true) := by
  simp [pyFromIso, fromisoformat_isoformat]

theorem pyGe_aware (a b : Nat) :
    pyGe (PyDt.mk a true) (PyDt.mk b true) = Except.ok (decide (b ≤ a)) := by
  simp [pyGe, pyLe]

theorem exceptBind_ok {α β : Type} (a : α) (f : α → Except PyErr β) :
    (Except.ok a : Except PyErr α).bind f = f a := rfl

theorem exceptBind_error {α β : Type} (e : PyErr) (f : α → Except PyErr β) :
    (Except.error e : Except PyErr α).bind f = Except.error e := rfl

theorem validateBody_genTok (secret d : String) (t now : Nat) :
    validateBody secret (genTok secret d t) now =
      if t + TOKEN_TTL_US ≤ now then Except.error (PyErr.invalidToken "Token has expired")
      else Except.ok true := by
  rw [validateBody, pySplit_genTok]
  dsimp only
  rw [if_pos rfl, compare_digest_sig, exceptBind_ok, if_pos rfl]
  rw [b64decodeE_payload, exceptBind_ok]
  rw [utf8DecodeE_encode, exceptBind_ok]
  rw [jsonLoadsE_payload, exceptBind_ok]
  rw [pySubscript_payload, exceptBind_ok]
  rw [pyFromIso_isoformat, exceptBind_ok]
  rw [pyGe_aware, exceptBind_ok]
  by_cases h : t + TOKEN_TTL_US ≤ now
  · rw [decide_eq_true h, if_pos rfl, if_pos h]
  · rw [decide_eq_false h, if_neg (by decide), if_neg h]

theorem mapFormatErrors_ok {α : Type} (x : α) :
    mapFormatErrors (Except.ok x) = Except.ok x := rfl

theorem mapFormatErrors_invalid (m : String) :
    mapFormatErrors (α := Bool) (Except.error (PyErr.invalidToken m)) =
      Except.error (PyErr.invalidToken m) := rfl

theorem mapFormatErrors_invalid_any {α : Type} (m : String) :
    mapFormatErrors (α := α) (Except.error (PyErr.invalidToken m)) =
      Except.error (PyErr.invalidToken m) := rfl

theorem mapFormatErrors_type {α : Type} (m : String) :
    mapFormatErrors (α := α) (Except.error (PyErr.typeError m)) =
      Except.error (PyErr.typeError m) := rfl

theorem mapFormatErrors_attr {α : Type} (m : String) :
    mapFormatErrors (α := α) (Except.error (PyErr.attributeError m)) =
      Except.error (PyErr.attributeError m) := rfl

theorem parts_data (p sig : String) :
    ("token" ++ "_" ++ p ++ "_" ++ sig).data =
      ("token" : String).data ++ '_' :: (p.data ++ '_' :: sig.data) := by
  simp [String.data_append]

theorem parts_ne_empty (p sig : String) : ("token" ++ "_" ++ p ++ "_" ++ sig) ≠ "" := by
  intro h
  have hd := congrArg String.data h
  rw [parts_data] at hd
  simp at hd

theorem pySplit_parts (p sig : String) (hp : '_' ∉ p.data) (hs : '_' ∉ sig.data) :
    pySplit ("token" ++ "_" ++ p ++ "_" ++ sig) = ["token", p, sig] := by
  rw [pySplit, parts_data]
  rw [splitListU_append (by decide), splitListU_append hp, splitListU_no_underscore hs]
  rfl

theorem pyDictGet_jobj (ms : List (String × JVal)) (key : String) :
    pyDictGet (JVal.jobj ms) key = Except.ok (assocGet ms key) := rfl

theorem assocGet_payload_device (d e i : String) :
    assocGet [("device_id", JVal.jstr d), ("expires_at", JVal.jstr e),
      ("issued_at", JVal.jstr i)] "device_id" = some (JVal.jstr d) := by
  simp [assocGet]

theorem assocGet_payload_expires (d e i : String) :
    assocGet [("device_id", JVal.jstr d), ("expires_at", JVal.jstr e),
      ("issued_at", JVal.jstr i)] "expires_at" = some (JVal.jstr e) := by
  simp [assocGet]

theorem assocGet_payload_issued (d e i : String) :
    assocGet [("device_id", JVal.jstr d), ("expires_at", JVal.jstr e),
      ("issued_at", JVal.jstr i)] "issued_at" = some (JVal.jstr i) := by
  simp [assocGet]

theorem getTokenInfoBody_genTok (secret d : String) (t : Nat) :
    getTokenInfoBody (genTok secret d t) = Except.ok (TokenInfo.mk
      (some (JVal.jstr d))
      (some (JVal.jstr (isoformat (PyDt.mk t true))))
      (some (JVal.jstr (isoformat (PyDt.mk (t + TOKEN_TTL_US) true))))) := by
  rw [getTokenInfoBody, pySplit_genTok]
  dsimp only
  rw [b64decodeE_payload, exceptBind_ok]
  rw [utf8DecodeE_encode, exceptBind_ok]
  rw [jsonLoadsE_payload, exceptBind_ok]
  rw [pyDictGet_jobj, exceptBind_ok, assocGet_payload_device]
  rw [pyDictGet_jobj, exceptBind_ok, assocGet_payload_issued]
  rw [pyDictGet_jobj, exceptBind_ok, assocGet_payload_expires]

theorem get_token_info_genTok (secret d : String) (t : Nat) :
    get_token_info (genTok secret d t) = Except.ok (TokenInfo.mk
      (some (JVal.jstr d))
      (some (JVal.jstr (isoformat (PyDt.mk t true))))
      (some (JVal.jstr (isoformat (PyDt.mk (t + TOKEN_TTL_US) true))))) := by
  rw [get_token_info, if_neg (genTok_ne_empty secret d t), getTokenInfoBody_genTok,
    mapFormatErrors_ok]

theorem validate_token_genTok (secret d : String) (t now : Nat) :
    validate_token secret (genTok secret d t) now =
      if t + TOKEN_TTL_US ≤ now then Except.error (PyErr.invalidToken "Token has expired")
      else Except.ok true := by
  rw [validate_token, if_neg (genTok_ne_empty secret d t), validateBody_genTok]
  by_cases h : t + TOKEN_TTL_US ≤ now
  · rw [if_pos h, mapFormatErrors_invalid]
  · rw [if_neg h, mapFormatErrors_ok]

/-! Gate reductions under the standard request hypotheses. -/

theorem gate_authorized (e_id dev img tok secret : String) (upd : UpdaterOutcome) (now : Nat)
    (he : e_id ≠ "") (hdev : dev ≠ "") (himg : img ≠ "") (htok : tok ≠ "")
    (b : Bool) (hval : validate_token secret tok now = Except.ok b)
    (info : TokenInfo) (hinfo : get_token_info tok = Except.ok info) :
    handle_update_screenshot (GateEnv.mk true (some secret) upd now)
        (UpdateMsg.mk (some e_id) (some dev) (some img) (some tok)) =
      if info.device_id = some (JVal.jstr dev) then
        (match upd with
         | UpdaterOutcome.ok true =>
           (GateResponse.sendResult true "Screenshot updated successfully", true)
         | UpdaterOutcome.ok false =>
           (GateResponse.sendResult false "Failed to update screenshot", true)
         | UpdaterOutcome.apiError m =>
           (GateResponse.sendResult false ("API error: " ++ m), true)
         | UpdaterOutcome.otherError m =>
           (GateResponse.sendError "internal_error" m, true))
      else (GateResponse.sendError "unauthorized" "Token is not valid for this device", false) := by
  have hfields : (truthyStr (some e_id) && truthyStr (some dev) && truthyStr (some img) &&
      truthyStr (some tok)) = true := by
    simp [truthyStr, he, hdev, himg, htok]
  rw [handle_update_screenshot]
  dsimp only
  rw [hfields, if_neg (by simp), if_neg (by simp)]
  simp only [Option.getD_some]
  rw [hval]
  dsimp only
  rw [hinfo]
  dsimp only
  by_cases hm : info.device_id = some (JVal.jstr dev)
  · rw [if_pos hm]
    have hb2 : (info.device_id == some (JVal.jstr dev)) = true := beq_iff_eq.mpr hm
    simp only [hb2]
    simp
  · rw [if_neg hm]
    have hb2 : (info.device_id == some (JVal.jstr dev)) = false := beq_eq_false_iff_ne.mpr hm
    simp only [hb2]
    simp

theorem gate_invalid_token (e_id dev img tok secret : String) (upd : UpdaterOutcome) (now : Nat)
    (he : e_id ≠ "") (hdev : dev ≠ "") (himg : img ≠ "") (htok : tok ≠ "")
    (m : String) (hval : validate_token secret tok now = Except.error (PyErr.invalidToken m)) :
    handle_update_screenshot (GateEnv.mk true (some secret) upd now)
        (UpdateMsg.mk (some e_id) (some dev) (some img) (some tok)) =
      (GateResponse.sendError "unauthorized" m, false) := by
  have hfields : (truthyStr (some e_id) && truthyStr (some dev) && truthyStr (some img) &&
      truthyStr (some tok)) = true := by
    simp [truthyStr, he, hdev, himg, htok]
  rw [handle_update_screenshot]
  dsimp only
  rw [hfields, if_neg (by simp), if_neg (by simp)]
  simp only [Option.getD_some]
  rw [hval]

theorem getD_set_self (l : List Char) (i : Nat) (a d : Char) (h : i < l.length) :
    (l.set i a).getD i d = a := by
  rw [List.getD_eq_getElem?_getD, List.getElem?_set_self]
  · rfl
  · simpa using h

theorem getD_mem_of_lt (l : List Char) (i : Nat) (d : Char) (h : i < l.length) :
    l.getD i d ∈ l := by
  rw [List.getD_eq_getElem?_getD]
  rcases h2 : l[i]? with _ | x
  · rw [List.getElem?_eq_none_iff] at h2; omega
  · exact List.getElem?_mem h2

/-- Every path of validate_token that returns normally returns True; used by
the one-sided-predicate claim. -/
theorem validateBody_ok (s t : String) (n : Nat) (b : Bool)
    (h : validateBody s t n = Except.ok b) : b = true := by
  rw [validateBody] at h
  rcases hsp : pySplit t with _ | ⟨x0, _ | ⟨x1, _ | ⟨x2, _ | ⟨x3, l4⟩⟩⟩⟩ <;> rw [hsp] at h
  · simp at h
  · simp at h
  · simp at h
  case cons.cons.cons.nil =>
    dsimp only at h
    by_cases hp : x0 = "token"
    · rw [if_pos hp] at h
      rcases hc : compare_digest x2 (_generate_signature s x1) with e | eb <;> rw [hc] at h
      · rw [exceptBind_error] at h; simp at h
      · rw [exceptBind_ok] at h
        rcases eb with _ | _
        · rw [if_neg (by simp)] at h; simp at h
        · rw [if_pos rfl] at h
          rcases hb64 : b64decodeE x1 with e | bs <;> rw [hb64] at h
          · rw [exceptBind_error] at h; simp at h
          · rw [exceptBind_ok] at h
            rcases hu : utf8DecodeE bs with e | pj <;> rw [hu] at h
            · rw [exceptBind_error] at h; simp at h
            · rw [exceptBind_ok] at h
              rcases hj : jsonLoadsE pj with e | pd <;> rw [hj] at h
              · rw [exceptBind_error] at h; simp at h
              · rw [exceptBind_ok] at h
                rcases hs2 : pySubscript pd "expires_at" with e | ev <;> rw [hs2] at h
                · rw [exceptBind_error] at h; simp at h
                · rw [exceptBind_ok] at h
                  rcases hf : pyFromIso ev with e | ex <;> rw [hf] at h
                  · rw [exceptBind_error] at h; simp at h
                  · rw [exceptBind_ok] at h
                    rcases hg : pyGe (PyDt.mk n true) ex with e | expired <;> rw [hg] at h
                    · rw [exceptBind_error] at h; simp at h
                    · rw [exceptBind_ok] at h
                      rcases expired with _ | _
                      · rw [if_neg (by simp)] at h
                        simpa using h.symm
                      · rw [if_pos rfl] at h; simp at h
    · rw [if_neg hp] at h; simp at h
  · simp at h

/-! Claims. -/

/-- C2: for every non-empty device_id d, validate_token accepts
generate_token(d) at any instant strictly before the token's expires_at
(now + 24h TTL), and get_token_info on the generated token reports exactly
d as the device_id. -/
theorem c2_generate_validate_roundtrip (secret d tok : String) (t0 t1 : Nat)
    (hd : d ≠ "") (hgen : generate_token secret d t0 = Except.ok tok)
    (hnow : t1 < t0 + TOKEN_TTL_US) :
    validate_token secret tok t1 = Except.ok true ∧
    (get_token_info tok).map TokenInfo.device_id = Except.ok (some (JVal.jstr d)) := by
  rw [generate_token, if_neg hd] at hgen
  injection hgen with hgen
  subst hgen
  constructor
  · rw [validate_token_genTok, if_neg (by omega)]
  · rw [get_token_info_genTok]
    rfl

/-- Witness for C2: device dev1, token minted at instant 0, validated at
instant 1. -/
theorem c2_witness :
    validate_token "k" (genTok "k" "dev1" 0) 1 = Except.ok true ∧
    (get_token_info (genTok "k" "dev1" 0)).map TokenInfo.device_id =
      Except.ok (some (JVal.jstr "dev1")) :=
  c2_generate_validate_roundtrip "k" "dev1" (genTok "k" "dev1" 0) 0 1 (by decide)
    (by rw [generate_token, if_neg (by decide)]) (by decide)

/-- C9: validate_token is a one-sided predicate: a normal return is always
the boolean True; every rejection is a raised exception. -/
theorem c9_validate_one_sided (secret token : String) (now : Nat) :
    validate_token secret token now = Except.ok true ∨
    ∃ e, validate_token secret token now = Except.error e := by
  rcases hv : validate_token secret token now with e | b
  · exact Or.inr ⟨e, rfl⟩
  · left
    have hb : b = true := by
      rw [validate_token] at hv
      by_cases ht : token = ""
      · rw [if_pos ht] at hv
        simp at hv
      · rw [if_neg ht] at hv
        rcases hr : validateBody secret token now with e2 | b2 <;> rw [hr] at hv
        · cases e2 <;> simp [mapFormatErrors] at hv
        · rw [mapFormatErrors_ok] at hv
          injection hv with hv2
          exact hv2 ▸ validateBody_ok secret token now b2 hr
    rw [hb]

/-- C10: get_token_info on any string with exactly three separator-delimited
parts whose middle part decodes to a JSON object returns the dict of the
three get lookups, with None for absent fields; the first and third parts
are never inspected. -/
theorem c10_get_token_info_lenient (token a p b : String) (bs : List Nat) (pj : String)
    (ms : List (String × JVal))
    (hsplit : pySplit token = [a, p, b]) (hb : b64decodeE p = Except.ok bs)
    (hu : utf8DecodeE bs = Except.ok pj) (hj : jsonLoadsE pj = Except.ok (JVal.jobj ms)) :
    get_token_info token = Except.ok (TokenInfo.mk (assocGet ms "device_id")
      (assocGet ms "issued_at") (assocGet ms "expires_at")) := by
  have hne : token ≠ "" := by
    intro h0
    subst h0
    rw [show pySplit "" = [""] from rfl] at hsplit
    simp at hsplit
  rw [get_token_info, if_neg hne, getTokenInfoBody, hsplit]
  dsimp only
  rw [hb, exceptBind_ok, hu, exceptBind_ok, hj, exceptBind_ok]
  rw [pyDictGet_jobj, exceptBind_ok, pyDictGet_jobj, exceptBind_ok, pyDictGet_jobj,
    exceptBind_ok, mapFormatErrors_ok]

/-- Witness for C10: prefix x, empty JSON object payload, signature part y;
all three info fields come back None. -/
theorem c10_witness :
    get_token_info "x_e30=_y" = Except.ok (TokenInfo.mk none none none) :=
  c10_get_token_info_lenient "x_e30=_y" "x" "e30=" "y" [123, 125] "\x7b\x7d" []
    (by decide) rfl rfl rfl

/-- C6: should_rotate_token on any three-part token whose payload decodes
to a JSON value with a parseable aware expires_at returns exactly the test
expires_at less-or-equal now + 6h, so the boundary case returns true; the
first and third parts are arbitrary and no signature (or secret) enters the
computation. -/
theorem c6_rotation_threshold (token a p b : String) (now : Nat) (bs : List Nat)
    (pj : String) (pd : JVal) (ev : JVal) (e : PyDt)
    (hsplit : pySplit token = [a, p, b]) (hb : b64decodeE p = Except.ok bs)
    (hu : utf8DecodeE bs = Except.ok pj) (hj : jsonLoadsE pj = Except.ok pd)
    (hs : pySubscript pd "expires_at" = Except.ok ev) (hf : pyFromIso ev = Except.ok e)
    (haware : e.aware = true) :
    should_rotate_token token now =
      Except.ok (decide (e.usec ≤ now + TOKEN_ROTATION_THRESHOLD_US)) := by
  have hne : token ≠ "" := by
    intro h0
    subst h0
    rw [show pySplit "" = [""] from rfl] at hsplit
    simp at hsplit
  have hle : pyLe e (PyDt.mk (now + TOKEN_ROTATION_THRESHOLD_US) true) =
      Except.ok (decide (e.usec ≤ now + TOKEN_ROTATION_THRESHOLD_US)) := by
    rcases e with ⟨u, aw⟩
    simp only at haware
    subst haware
    simp [pyLe]
  rw [should_rotate_token, if_neg hne, shouldRotateBody, hsplit]
  dsimp only
  rw [hb, exceptBind_ok, hu, exceptBind_ok, hj, exceptBind_ok, hs, exceptBind_ok, hf,
    exceptBind_ok, hle, mapFormatErrors_ok]

/-- Witness for C6 at the exact boundary: expires_at is now + 6h to the
microsecond and the result is true. -/
theorem c6_witness :
    should_rotate_token ("x_" ++ b64encode (utf8Encode
      "\x7b\"expires_at\": \"21600000007+00:00\"\x7d") ++ "_y") 7 = Except.ok true := by
  have h := c6_rotation_threshold ("x_" ++ b64encode (utf8Encode
      "\x7b\"expires_at\": \"21600000007+00:00\"\x7d") ++ "_y") "x"
    (b64encode (utf8Encode "\x7b\"expires_at\": \"21600000007+00:00\"\x7d")) "y" 7
    (utf8Encode "\x7b\"expires_at\": \"21600000007+00:00\"\x7d")
    "\x7b\"expires_at\": \"21600000007+00:00\"\x7d"
    (JVal.jobj [("expires_at", JVal.jstr "21600000007+00:00")])
    (JVal.jstr "21600000007+00:00") (PyDt.mk 21600000007 true)
    (by decide) rfl rfl rfl rfl rfl rfl
  rw [h]
  rfl

/-- C8: a token whose payload is valid JSON but not an object makes both
should_rotate_token and get_token_info raise TypeError and AttributeError
respectively, which the catch clause (ValueError, KeyError, JSONDecodeError)
does not cover, contradicting the documented InvalidTokenError-only
contract; the payload here is the JSON array produced by base64 W10=. -/
theorem c8_nonobject_payload_uncaught (now : Nat) :
    should_rotate_token "x_W10=_y" now =
      Except.error (PyErr.typeError "list indices must be integers or slices, not str") ∧
    get_token_info "x_W10=_y" =
      Except.error (PyErr.attributeError "object has no attribute get") :=
  ⟨rfl, rfl⟩

/-- C5: for a well-formed token whose signature is the correct HMAC of its
payload segment and whose payload carries a parseable aware expires_at,
validation succeeds exactly when now is strictly before expires_at, and at
or after that instant it fails with the expired reason. -/
theorem c5_strict_expiry (secret p sig : String) (now : Nat) (bs : List Nat) (pj : String)
    (pd : JVal) (ev : JVal) (e : PyDt)
    (hp : '_' ∉ p.data) (hsig : sig = _generate_signature secret p)
    (hb : b64decodeE p = Except.ok bs) (hu : utf8DecodeE bs = Except.ok pj)
    (hj : jsonLoadsE pj = Except.ok pd) (hs : pySubscript pd "expires_at" = Except.ok ev)
    (hf : pyFromIso ev = Except.ok e) (haware : e.aware = true) :
    (now < e.usec → validate_token secret ("token" ++ "_" ++ p ++ "_" ++ sig) now =
      Except.ok true) ∧
    (e.usec ≤ now → validate_token secret ("token" ++ "_" ++ p ++ "_" ++ sig) now =
      Except.error (PyErr.invalidToken "Token has expired")) := by
  subst hsig
  have hge : pyGe (PyDt.mk now true) e = Except.ok (decide (e.usec ≤ now)) := by
    rcases e with ⟨u, aw⟩
    simp only at haware
    subst haware
    simp [pyGe, pyLe]
  have main : validate_token secret
      ("token" ++ "_" ++ p ++ "_" ++ _generate_signature secret p) now =
      if e.usec ≤ now then Except.error (PyErr.invalidToken "Token has expired")
      else Except.ok true := by
    rw [validate_token, if_neg (parts_ne_empty _ _), validateBody,
      pySplit_parts p _ hp sig_no_underscore]
    dsimp only
    rw [if_pos rfl, compare_digest_sig, exceptBind_ok, if_pos rfl]
    rw [hb, exceptBind_ok, hu, exceptBind_ok, hj, exceptBind_ok, hs, exceptBind_ok, hf,
      exceptBind_ok, hge, exceptBind_ok]
    by_cases hx : e.usec ≤ now
    · rw [decide_eq_true hx, if_pos rfl, if_pos hx, mapFormatErrors_invalid]
    · rw [decide_eq_false hx, if_neg (by decide), if_neg hx, mapFormatErrors_ok]
  constructor
  · intro hlt
    rw [main, if_neg (by omega)]
  · intro hle2
    rw [main, if_pos hle2]

/-- Witness for C5: payload with expires_at at instant 5, validated at
instant 9, hence already expired. -/
theorem c5_witness :
    (9 < 5 → validate_token "k" ("token" ++ "_" ++
        b64encode (utf8Encode "\x7b\"expires_at\": \"5+00:00\"\x7d") ++ "_" ++
        _generate_signature "k" (b64encode (utf8Encode "\x7b\"expires_at\": \"5+00:00\"\x7d")))
        9 = Except.ok true) ∧
    (5 ≤ 9 → validate_token "k" ("token" ++ "_" ++
        b64encode (utf8Encode "\x7b\"expires_at\": \"5+00:00\"\x7d") ++ "_" ++
        _generate_signature "k" (b64encode (utf8Encode "\x7b\"expires_at\": \"5+00:00\"\x7d")))
        9 = Except.error (PyErr.invalidToken "Token has expired")) :=
  c5_strict_expiry "k" (b64encode (utf8Encode "\x7b\"expires_at\": \"5+00:00\"\x7d"))
    (_generate_signature "k" (b64encode (utf8Encode "\x7b\"expires_at\": \"5+00:00\"\x7d")))
    9 (utf8Encode "\x7b\"expires_at\": \"5+00:00\"\x7d") "\x7b\"expires_at\": \"5+00:00\"\x7d"
    (JVal.jobj [("expires_at", JVal.jstr "5+00:00")]) (JVal.jstr "5+00:00") (PyDt.mk 5 true)
    (by decide) rfl rfl rfl rfl rfl rfl rfl

/-- C1: once the token itself validates, the Gate forwards to the Updater
only when the device_id inside the token equals the requested device_id
exactly; on a mismatch it sends the unauthorized error and the Updater is
never invoked. -/
theorem c1_device_binding (e_id dev img tok secret : String) (upd : UpdaterOutcome) (now : Nat)
    (he : e_id ≠ "") (hdev : dev ≠ "") (himg : img ≠ "") (htok : tok ≠ "")
    (b : Bool) (hval : validate_token secret tok now = Except.ok b)
    (info : TokenInfo) (hinfo : get_token_info tok = Except.ok info) :
    (info.device_id ≠ some (JVal.jstr dev) →
      handle_update_screenshot (GateEnv.mk true (some secret) upd now)
          (UpdateMsg.mk (some e_id) (some dev) (some img) (some tok)) =
        (GateResponse.sendError "unauthorized" "Token is not valid for this device", false)) ∧
    ((handle_update_screenshot (GateEnv.mk true (some secret) upd now)
          (UpdateMsg.mk (some e_id) (some dev) (some img) (some tok))).2 = true →
      info.device_id = some (JVal.jstr dev)) := by
  have hg := gate_authorized e_id dev img tok secret upd now he hdev himg htok b hval info hinfo
  constructor
  · intro hne
    rw [hg, if_neg hne]
  · intro hinv
    by_contra hne
    rw [hg, if_neg hne] at hinv
    simp at hinv

/-- Witness for C1: a valid unexpired token for dev2 presented for dev1 is
rejected as unauthorized. -/
theorem c1_witness :
    handle_update_screenshot (GateEnv.mk true (some "k") (UpdaterOutcome.ok true) 1)
        (UpdateMsg.mk (some "e") (some "dev1") (some "img") (some (genTok "k" "dev2" 0))) =
      (GateResponse.sendError "unauthorized" "Token is not valid for this device", false) :=
  (c1_device_binding "e" "dev1" "img" (genTok "k" "dev2" 0) "k" (UpdaterOutcome.ok true) 1
    (by decide) (by decide) (by decide) (genTok_ne_empty "k" "dev2" 0) true
    ((validate_token_genTok "k" "dev2" 0 1).trans (if_neg (by decide)))
    (TokenInfo.mk (some (JVal.jstr "dev2")) (some (JVal.jstr (isoformat (PyDt.mk 0 true))))
      (some (JVal.jstr (isoformat (PyDt.mk (0 + TOKEN_TTL_US) true)))))
    (get_token_info_genTok "k" "dev2" 0)).1 (by decide)

/-- C3 counterexample: two update_with_token requests failing validation for
different sub-reasons (part count versus prefix) receive caller-visible
messages that differ, because the handler sends str(err) back; only the
error code is constant. -/
theorem c3_counterexample :
    handle_update_screenshot (GateEnv.mk true (some "k") (UpdaterOutcome.ok true) 5)
        (UpdateMsg.mk (some "e") (some "dev1") (some "img") (some "abc")) =
      (GateResponse.sendError "unauthorized" "Invalid token format", false) ∧
    handle_update_screenshot (GateEnv.mk true (some "k") (UpdaterOutcome.ok true) 5)
        (UpdateMsg.mk (some "e") (some "dev1") (some "img") (some "x_y_z")) =
      (GateResponse.sendError "unauthorized" "Invalid token prefix", false) ∧
    ("Invalid token format" : String) ≠ "Invalid token prefix" :=
  ⟨rfl, rfl, by decide⟩

/-- C3 as amended: every InvalidTokenError from validate_token is reported
with the constant error code unauthorized, but the message sent to the
caller is str(err) itself, so the sub-reason is caller-visible rather than
appearing only in logs. -/
theorem c3_unauthorized_code_with_reason_message (e_id dev img tok secret : String)
    (upd : UpdaterOutcome) (now : Nat)
    (he : e_id ≠ "") (hdev : dev ≠ "") (himg : img ≠ "") (htok : tok ≠ "")
    (m : String) (hval : validate_token secret tok now = Except.error (PyErr.invalidToken m)) :
    handle_update_screenshot (GateEnv.mk true (some secret) upd now)
        (UpdateMsg.mk (some e_id) (some dev) (some img) (some tok)) =
      (GateResponse.sendError "unauthorized" m, false) :=
  gate_invalid_token e_id dev img tok secret upd now he hdev himg htok m hval

/-- Witness for the amended C3: a one-part token yields the unauthorized
code with the format message in the response. -/
theorem c3_witness :
    handle_update_screenshot (GateEnv.mk true (some "k") (UpdaterOutcome.ok true) 7)
        (UpdateMsg.mk (some "e2") (some "dev9") (some "img2") (some "abc")) =
      (GateResponse.sendError "unauthorized" "Invalid token format", false) :=
  c3_unauthorized_code_with_reason_message "e2" "dev9" "img2" "abc" "k"
    (UpdaterOutcome.ok true) 7 (by decide) (by decide) (by decide) (by decide)
    "Invalid token format" rfl

/-- C4 counterexample: a non-TRMNLAPIError exception from the Updater on an
authorized request is returned to the caller as an internal_error response,
not converted to a success-false result. -/
theorem c4_counterexample :
    handle_update_screenshot (GateEnv.mk true (some "k") (UpdaterOutcome.otherError "boom") 1)
        (UpdateMsg.mk (some "e") (some "dev1") (some "img") (some (genTok "k" "dev1" 0))) =
      (GateResponse.sendError "internal_error" "boom", true) := by
  rw [gate_authorized "e" "dev1" "img" (genTok "k" "dev1" 0) "k"
    (UpdaterOutcome.otherError "boom") 1 (by decide) (by decide) (by decide)
    (genTok_ne_empty "k" "dev1" 0) true
    ((validate_token_genTok "k" "dev1" 0 1).trans (if_neg (by decide)))
    (TokenInfo.mk (some (JVal.jstr "dev1")) (some (JVal.jstr (isoformat (PyDt.mk 0 true))))
      (some (JVal.jstr (isoformat (PyDt.mk (0 + TOKEN_TTL_US) true)))))
    (get_token_info_genTok "k" "dev1" 0)]
  rw [if_pos (by decide)]

/-- C4 as amended: once a request reaches the forwarding step, a raised
TRMNLAPIError is converted to a success-false result, but any other Updater
exception is caught only by the handler-wide except and is returned as an
internal_error response; in both cases the Gate itself does not crash, and
returned booleans map to the two documented result messages. -/
theorem c4_updater_outcomes (e_id dev img tok secret : String) (now : Nat)
    (he : e_id ≠ "") (hdev : dev ≠ "") (himg : img ≠ "") (htok : tok ≠ "")
    (b : Bool) (hval : validate_token secret tok now = Except.ok b)
    (info : TokenInfo) (hinfo : get_token_info tok = Except.ok info)
    (hmatch : info.device_id = some (JVal.jstr dev)) :
    (∀ m, handle_update_screenshot (GateEnv.mk true (some secret)
        (UpdaterOutcome.apiError m) now)
        (UpdateMsg.mk (some e_id) (some dev) (some img) (some tok)) =
      (GateResponse.sendResult false ("API error: " ++ m), true)) ∧
    (∀ m, handle_update_screenshot (GateEnv.mk true (some secret)
        (UpdaterOutcome.otherError m) now)
        (UpdateMsg.mk (some e_id) (some dev) (some img) (some tok)) =
      (GateResponse.sendError "internal_error" m, true)) ∧
    (∀ s, handle_update_screenshot (GateEnv.mk true (some secret)
        (UpdaterOutcome.ok s) now)
        (UpdateMsg.mk (some e_id) (some dev) (some img) (some tok)) =
      (GateResponse.sendResult s
        (if s then "Screenshot updated successfully" else "Failed to update screenshot"),
        true)) := by
  refine ⟨fun m => ?_, fun m => ?_, fun s => ?_⟩
  · rw [gate_authorized e_id dev img tok secret (UpdaterOutcome.apiError m) now
      he hdev himg htok b hval info hinfo, if_pos hmatch]
  · rw [gate_authorized e_id dev img tok secret (UpdaterOutcome.otherError m) now
      he hdev himg htok b hval info hinfo, if_pos hmatch]
  · rw [gate_authorized e_id dev img tok secret (UpdaterOutcome.ok s) now
      he hdev himg htok b hval info hinfo, if_pos hmatch]
    cases s <;> rfl

/-- Witness for the amended C4: a TRMNLAPIError with message down becomes a
success-false result on an authorized request. -/
theorem c4_witness :
    handle_update_screenshot (GateEnv.mk true (some "k") (UpdaterOutcome.apiError "down") 1)
        (UpdateMsg.mk (some "e") (some "dev1") (some "img") (some (genTok "k" "dev1" 0))) =
      (GateResponse.sendResult false ("API error: " ++ "down"), true) :=
  (c4_updater_outcomes "e" "dev1" "img" (genTok "k" "dev1" 0) "k" 1
    (by decide) (by decide) (by decide) (genTok_ne_empty "k" "dev1" 0) true
    ((validate_token_genTok "k" "dev1" 0 1).trans (if_neg (by decide)))
    (TokenInfo.mk (some (JVal.jstr "dev1")) (some (JVal.jstr (isoformat (PyDt.mk 0 true))))
      (some (JVal.jstr (isoformat (PyDt.mk (0 + TOKEN_TTL_US) true)))))
    (get_token_info_genTok "k" "dev1" 0) (by decide)).1 "down"

/-- C7 as amended: replacing one character of a generated token's signature
segment with a different ASCII character other than the separator yields the
signature failure reason, at any validation instant (the signature check
precedes the expiry check); replacement with the separator changes the part
count and yields the format reason instead, and a non-ASCII replacement
makes compare_digest raise TypeError. -/
theorem c7_signature_tamper (secret d : String) (t now i : Nat) (c : Char)
    (hd : d ≠ "")
    (hi : i < (_generate_signature secret (payloadB64Of d t)).data.length)
    (hc : c ≠ (_generate_signature secret (payloadB64Of d t)).data.getD i ' ')
    (hus : c ≠ '_') (hascii : c.toNat < 128) :
    generate_token secret d t = Except.ok ("token" ++ "_" ++ payloadB64Of d t ++ "_" ++
      _generate_signature secret (payloadB64Of d t)) ∧
    validate_token secret ("token" ++ "_" ++ payloadB64Of d t ++ "_" ++
        String.mk ((_generate_signature secret (payloadB64Of d t)).data.set i c)) now =
      Except.error (PyErr.invalidToken "Invalid token signature") := by
  constructor
  · rw [generate_token, if_neg hd, genTok]
  · have hus2 : '_' ∉ (String.mk
        ((_generate_signature secret (payloadB64Of d t)).data.set i c)).data := by
      rw [data_mk]
      intro hmem
      rcases List.mem_or_eq_of_mem_set hmem with h2 | h2
      · exact sig_no_underscore h2
      · exact hus h2.symm
    have hascii2 : ((String.mk
        ((_generate_signature secret (payloadB64Of d t)).data.set i c)).data.all
          (fun ch => ch.toNat < 128)) = true := by
      rw [data_mk, List.all_eq_true]
      intro x hx
      rcases List.mem_or_eq_of_mem_set hx with h2 | h2
      · simpa using (hexChar_prop x (sig_chars h2)).2
      · subst h2
        simpa using hascii
    have hneq : String.mk ((_generate_signature secret (payloadB64Of d t)).data.set i c) ≠
        _generate_signature secret (payloadB64Of d t) := by
      intro heq
      have hdata := congrArg String.data heq
      rw [data_mk] at hdata
      have hsame : ((_generate_signature secret (payloadB64Of d t)).data.set i c).getD i ' ' =
          (_generate_signature secret (payloadB64Of d t)).data.getD i ' ' := by
        rw [hdata]
      rw [getD_set_self _ _ _ _ hi] at hsame
      exact hc hsame
    rw [validate_token, if_neg (parts_ne_empty _ _), validateBody,
      pySplit_parts _ _ (payloadB64Of_no_underscore d t) hus2]
    dsimp only
    rw [if_pos rfl, compare_digest, if_pos]
    · rw [beq_false_of_ne hneq, exceptBind_ok, if_neg (by decide), mapFormatErrors_invalid]
    · rw [hascii2, sig_ascii]
      rfl

/-- Witness for the amended C7: first signature character replaced by z,
which is ASCII, not the separator, and never equal to a hex digit position
character z is outside the hex alphabet. -/
theorem c7_witness :
    generate_token "k" "dev1" 0 = Except.ok ("token" ++ "_" ++ payloadB64Of "dev1" 0 ++ "_" ++
      _generate_signature "k" (payloadB64Of "dev1" 0)) ∧
    validate_token "k" ("token" ++ "_" ++ payloadB64Of "dev1" 0 ++ "_" ++
        String.mk ((_generate_signature "k" (payloadB64Of "dev1" 0)).data.set 0 'z')) 3 =
      Except.error (PyErr.invalidToken "Invalid token signature") :=
  c7_signature_tamper "k" "dev1" 0 3 0 'z' (by decide)
    (by rw [sig_length]; decide)
    (by
      intro h
      have hmem := getD_mem_of_lt (_generate_signature "k" (payloadB64Of "dev1" 0)).data 0 ' '
        (by rw [sig_length]; decide)
      have hhex := sig_chars hmem
      rw [← h] at hhex
      exact absurd hhex (by decide))
    (by decide) (by decide)

/-- C7 counterexample: replacing the first signature character of a valid
generated token with the separator is a single-character signature mutation,
yet validate_token reports the format reason, not the signature reason,
because the token then splits into four parts. -/
theorem c7_counterexample :
    ('_' ≠ (_generate_signature "k" (payloadB64Of "dev1" 0)).data.getD 0 ' ') ∧
    validate_token "k" ("token" ++ "_" ++ payloadB64Of "dev1" 0 ++ "_" ++
        String.mk ((_generate_signature "k" (payloadB64Of "dev1" 0)).data.set 0 '_')) 0 =
      Except.error (PyErr.invalidToken "Invalid token format") := by
  rcases hds : (_generate_signature "k" (payloadB64Of "dev1" 0)).data with _ | ⟨h0, rest⟩
  · exfalso
    have hlen := sig_length "k" (payloadB64Of "dev1" 0)
    rw [hds] at hlen
    simp at hlen
  · have hh0 : h0 ∈ hexChars := sig_chars (by rw [hds]; exact List.mem_cons_self h0 rest)
    have hrest : '_' ∉ rest := by
      intro hmem
      have : ('_' : Char) ∈ hexChars :=
        sig_chars (by rw [hds]; exact List.mem_cons_of_mem h0 hmem)
      exact absurd this (by decide)
    constructor
    · intro hcontra
      have h1 : h0 = '_' := by
        have hgetD : (h0 :: rest).getD 0 ' ' = h0 := rfl
        rw [hgetD] at hcontra
        exact hcontra.symm
      rw [h1] at hh0
      exact absurd hh0 (by decide)
    · rw [show ((h0 :: rest).set 0 '_') = '_' :: rest from rfl]
      have hsplit : pySplit ("token" ++ "_" ++ payloadB64Of "dev1" 0 ++ "_" ++
          String.mk ('_' :: rest)) =
          ["token", payloadB64Of "dev1" 0, "", String.mk rest] := by
        rw [pySplit, parts_data, data_mk]
        rw [splitListU_append (by decide), splitListU_append (payloadB64Of_no_underscore _ _)]
        have htail : splitListU ('_' :: rest) = [] :: [rest] := by
          rw [splitListU, splitListU_no_underscore hrest]
          simp
        rw [htail]
        rfl
      rw [validate_token, if_neg (parts_ne_empty _ _), validateBody, hsplit]
      dsimp only
      rw [mapFormatErrors_invalid]
